import Mathlib

/-!
# Verification of flameeyes-paperless-automation

Shallow embedding, in Lean 4, of the document-identification pipeline and
reconciliation logic of the `flameeyes_paperless` package, together with
theorems settling the specification claims.

Conventions of the embedding:
* Python `int` is modelled as `Int`, `str` as `String`.  String primitives
  that the kernel cannot evaluate are re-stated over the character list
  (`pyLower`, `pyStartswith`, `pyRemovesuffix`, `pySplit`); case folding is
  ASCII, which matches Python `str.lower` on the names this code handles.
* Fallible Python code (exceptions) is modelled with `Except`.
* In-place mutation of a Python object is modelled by explicit state passing:
  a function that mutates a `Document` returns the post-state of that
  document.
* The remote Paperless server reached over HTTP is modelled by an explicit
  `ServerState` holding the collections the code reads and writes, plus, for
  the `ensure_*` helpers, by an abstract API record (the HTTP responses are
  outside the repository, so their behaviour is a parameter).
-/

/-- `Except` carries decidable equality when its components do (needed so
that concrete runs can be checked by `decide`). -/
instance {ε α : Type _} [DecidableEq ε] [DecidableEq α] :
    DecidableEq (Except ε α)
  | .ok a, .ok b =>
    if h : a = b then .isTrue (by rw [h]) else .isFalse (by simp [h])
  | .ok _, .error _ => .isFalse (by simp)
  | .error _, .ok _ => .isFalse (by simp)
  | .error e, .error f =>
    if h : e = f then .isTrue (by rw [h]) else .isFalse (by simp [h])

namespace Paperless

/-! ## Data model (src/flameeyes_paperless/types.py)

Only the fields the verified code paths read or write are carried; the
remaining fields of the Python dataclasses (content, timestamps, owner, ...)
are threaded through mutations unchanged and are omitted from the model.
-/

/-- A named remote object (Tag / Correspondent / DocumentType / CustomField):
the `id` and `name` fields that `lookup_*` and `ensure_*` consult, plus the
`slug` set on creation. -/
structure RemoteObject where
  id : Int
  name : String
  slug : String
deriving DecidableEq, Repr

/-- `types.py` `CustomFieldValue`: a (field id, string value) pair. -/
structure CustomFieldValue where
  field : Int
  value : String
deriving DecidableEq, Repr

/-- `types.py` `Document`, restricted to the fields the pipeline and the
batch drivers read or write. -/
structure Document where
  id : Int
  correspondent : Option Int
  document_type : Option Int
  storage_path : Option Int
  title : String
  tags : List Int
  created_date : String
  custom_field_values : List CustomFieldValue
  mime_type : String
deriving DecidableEq, Repr

/-! ## Name lookup (src/flameeyes_paperless/session.py lines 212-322)

Every `lookup_*` method filters a collection by case-insensitive exact name
match and passes the resulting iterator to `more_itertools.one` with
`too_short=ObjectNotFound(...)`; `one` raises its default `ValueError` when a
second element exists.  `LookupFailure.notFound` models the `ObjectNotFound`
raised for an empty iterator and `LookupFailure.ambiguous` the `ValueError`
raised for two or more elements. -/

inductive LookupFailure where
  | notFound
  | ambiguous
deriving DecidableEq, Repr

/-- Python `str.lower` on the ASCII names this code handles, character by
character.  (Stated over the character list so that concrete instances
evaluate inside the kernel.) -/
def pyLower (s : String) : String :=
  String.mk (s.data.map Char.toLower)

/-- Python `str.startswith`. -/
def pyStartswith (s p : String) : Bool :=
  List.isPrefixOf p.data s.data

/-- Python `str.removesuffix`: drop the suffix when present, otherwise
return the string unchanged. -/
def pyRemovesuffix (s suffix : String) : String :=
  if List.isSuffixOf suffix.data s.data then
    String.mk (s.data.take (s.data.length - suffix.data.length))
  else s

/-- Split a character list on a separator; `[[]]` for the empty list, so
that `pySplit` agrees with Python `str.split(sep)`. -/
def splitOnChar (sep : Char) : List Char → List (List Char)
  | [] => [[]]
  | c :: rest =>
    match splitOnChar sep rest with
    | [] => [[]]
    | g :: gs => if c == sep then [] :: g :: gs else (c :: g) :: gs

/-- Python `str.split(sep)` for a one-character separator. -/
def pySplit (sep : Char) (s : String) : List String :=
  (splitOnChar sep s.data).map String.mk

/-- `more_itertools.one`: the unique element of the iterator, `notFound` when
it is empty, `ambiguous` when it holds at least two elements. -/
def one : List α → Except LookupFailure α
  | [] => .error .notFound
  | [a] => .ok a
  | _ :: _ :: _ => .error .ambiguous

/-- The generator `(obj for obj in objs if name_lower == obj.name.lower())`
shared by all `lookup_*` methods, with `name_lower = name.lower()`. -/
def name_matches (name : String) (obj : RemoteObject) : Bool :=
  pyLower name == pyLower obj.name

/-- Body shared verbatim by `lookup_tag`, `lookup_correspondent`,
`lookup_document_type`, `lookup_storage_path` and `lookup_custom_field`:
`one` over the case-insensitive exact matches. -/
def lookup_by_name (objs : List RemoteObject) (name : String) :
    Except LookupFailure RemoteObject :=
  one (objs.filter (name_matches name))

/-- The remote collections the verified code paths touch, with the id
counters the server uses for newly created objects.  `update_document`
and `update_tag` write to collections not read back by these paths, so the
document store itself is not carried. -/
structure ServerState where
  tags : List RemoteObject
  correspondents : List RemoteObject
  document_types : List RemoteObject
  custom_fields : List RemoteObject
  nextCorrespondentId : Int
  nextDocumentTypeId : Int
deriving DecidableEq, Repr

/-- `session.py` `lookup_tag` (lines 212-217). -/
def lookup_tag (st : ServerState) (name : String) : Except LookupFailure RemoteObject :=
  lookup_by_name st.tags name

/-- `session.py` `lookup_correspondent` (lines 247-252). -/
def lookup_correspondent (st : ServerState) (name : String) :
    Except LookupFailure RemoteObject :=
  lookup_by_name st.correspondents name

/-- `session.py` `lookup_document_type` (lines 277-282). -/
def lookup_document_type (st : ServerState) (name : String) :
    Except LookupFailure RemoteObject :=
  lookup_by_name st.document_types name

/-- `session.py` `lookup_custom_field` (lines 317-322); `cached_custom_field`
memoizes it per session, and the verified paths never change
`custom_fields`, so the memoized and direct lookups agree. -/
def lookup_custom_field (st : ServerState) (name : String) :
    Except LookupFailure RemoteObject :=
  lookup_by_name st.custom_fields name

/-! ## Slugs and the ensure helpers (src/flameeyes_paperless/utils.py) -/

/-- `utils.py` `to_slug` (lines 18-20): lowercase, then replace every
non-word character (`\W`, complement of alphanumeric and underscore) with a
dash. -/
def to_slug (name : String) : String :=
  String.mk ((pyLower name).data.map
    (fun c => if c.isAlphanum || c == '_' then c else '-'))

/-- Outcome of an `ensure_*` call.  `fuelExhausted` is an artefact of the
embedding only: the Python functions recurse without any bound, so the model
runs them with explicit fuel, and exhausting it marks a run that in Python
would still be recursing. -/
inductive EnsureFailure where
  | ambiguous
  | fuelExhausted
deriving DecidableEq, Repr

/-- The remote collection interface an `ensure_*` helper drives: a name
lookup and a create request.  The HTTP server's behaviour is outside the
repository, so it is a parameter; `create` receives the name and slug the
code sends. -/
structure NamedCollectionApi (σ : Type) where
  lookup : σ → String → Except LookupFailure RemoteObject
  create : σ → String → String → σ

/-- `utils.py` `ensure_document_type` (lines 94-102): lookup; on
`ObjectNotFound`, create with `to_slug` and recurse.  The recursion carries
no bound in the source; the `Nat` argument is embedding fuel.  The third
component of the result counts the create calls issued. -/
def ensure_document_type (api : NamedCollectionApi σ) :
    Nat → σ → String → Except EnsureFailure RemoteObject × σ × Nat
  | 0, st, _ => (.error .fuelExhausted, st, 0)
  | n + 1, st, name =>
    match api.lookup st name with
    | .ok obj => (.ok obj, st, 0)
    | .error .ambiguous => (.error .ambiguous, st, 0)
    | .error .notFound =>
      let st1 := api.create st name (to_slug name)
      let r := ensure_document_type api n st1 name
      (r.1, r.2.1, r.2.2 + 1)

/-- `utils.py` `ensure_correspondent` (lines 105-113): same shape as
`ensure_document_type` over the correspondents collection. -/
def ensure_correspondent (api : NamedCollectionApi σ) :
    Nat → σ → String → Except EnsureFailure RemoteObject × σ × Nat
  | 0, st, _ => (.error .fuelExhausted, st, 0)
  | n + 1, st, name =>
    match api.lookup st name with
    | .ok obj => (.ok obj, st, 0)
    | .error .ambiguous => (.error .ambiguous, st, 0)
    | .error .notFound =>
      let st1 := api.create st name (to_slug name)
      let r := ensure_correspondent api n st1 name
      (r.1, r.2.1, r.2.2 + 1)

/-- The correspondents collection backed by `ServerState`: lookup is
`session.lookup_correspondent`; create is `session.new_correspondent`
(session.py lines 261-270), with the server assigning the next id. -/
def correspondentApi : NamedCollectionApi ServerState where
  lookup := lookup_correspondent
  create st name slug :=
    { st with
      correspondents := st.correspondents ++ [⟨st.nextCorrespondentId, name, slug⟩]
      nextCorrespondentId := st.nextCorrespondentId + 1 }

/-- The document-types collection backed by `ServerState`: lookup is
`session.lookup_document_type`; create is `session.new_document_type`
(session.py lines 303-312). -/
def documentTypeApi : NamedCollectionApi ServerState where
  lookup := lookup_document_type
  create st name slug :=
    { st with
      document_types := st.document_types ++ [⟨st.nextDocumentTypeId, name, slug⟩]
      nextDocumentTypeId := st.nextDocumentTypeId + 1 }

/-! ## Configuration (src/flameeyes_paperless/config.py)

The alias tables are string-keyed dicts; the three predefined tag slots are
the optional keys of the `predefined_tags` dict. -/

/-- `config.py` `Config`, restricted to the fields the pipeline and the
batch drivers consult. -/
structure Config where
  aliases_account_holder : List (String × String)
  aliases_correspondent : List (String × String)
  predefined_tags_identified : Option String
  predefined_tags_inbox : Option String
  predefined_tags_scanned : Option String
deriving DecidableEq, Repr

/-- `config.py` `Config.lookup_account_holder` (lines 46-49):
`aliases.get("account_holder", {}).get(x, x)`. -/
def Config.lookup_account_holder (cfg : Config) (account_holder : String) : String :=
  ((cfg.aliases_account_holder.find? (fun kv => kv.1 == account_holder)).map
    (fun kv => kv.2)).getD account_holder

/-- `config.py` `Config.lookup_correspondent` (lines 51-52):
`aliases.get("correspondent", {}).get(x, x)`. -/
def Config.lookup_correspondent (cfg : Config) (correspondent : String) : String :=
  ((cfg.aliases_correspondent.find? (fun kv => kv.1 == correspondent)).map
    (fun kv => kv.2)).getD correspondent

/-- Modelled from the spec: `Config.lookup_document_type` is called by
`identify.py` line 54 but is not defined anywhere under `src/`
(`config.py` defines only `lookup_account_holder` and
`lookup_correspondent`).  The spec (section 4.3 step 4) describes
document-type alias resolution as a configuration-driven passthrough that is
currently always the identity, which is what this definition implements. -/
def Config.lookup_document_type (_cfg : Config) (document_type : String) : String :=
  document_type

/-! ## The extraction engine interface (external collaborator)

`pdfrename` is outside the repository: `try_all_renamers` yields candidate
`NameComponents`, `normalize_account_holder_name` normalizes one name and
`NameComponents.render_filename` renders the canonical filename or raises
`InvalidFilenameError`.  They are modelled as opaque data and functions. -/

/-- A calendar date as carried by `NameComponents.date`. -/
structure PDate where
  year : Nat
  month : Nat
  day : Nat
deriving DecidableEq, Repr

/-- Left-pad the decimal rendering of `n` with zeroes to `width` digits. -/
def padZeroes (width : Nat) (n : Nat) : String :=
  let s := toString n
  String.mk (List.replicate (width - s.length) '0') ++ s

/-- `result.date.strftime("%Y-%m-%d")` (identify.py line 62): ISO
`YYYY-MM-DD` with zero-padded fields. -/
def PDate.strftime_ymd (d : PDate) : String :=
  padZeroes 4 d.year ++ "-" ++ padZeroes 2 d.month ++ "-" ++ padZeroes 2 d.day

/-- `pdfrename` `NameComponents`: the fields `identify_document` reads and
writes.  The source reads the candidate's holders as `account_holders` and
stores the normalized tuple back into `account_holder`; both refer to this
single list. -/
structure NameComponents where
  account_holder : List String
  service_name : String
  document_type : String
  date : PDate
  account_number : Option String
  document_number : Option String
deriving DecidableEq, Repr

/-- The two opaque `pdfrename` library functions the pipeline calls:
`normalize_account_holder_name(name, True)` and
`components.render_filename(True, True)` (`none` models
`InvalidFilenameError`). -/
structure RenamerLib where
  normalize_account_holder_name : String → String
  render_filename : NameComponents → Option String

/-- Outcome of `try_all_renamers` over the downloaded PDF: either the list
of candidate `NameComponents` the iterator yields, or a `PSEOF`/`IndexError`
raised while extracting (identify.py line 44). -/
inductive ExtractionOutcome where
  | results (candidates : List NameComponents)
  | engineError
deriving DecidableEq, Repr

/-! ## The identification pipeline (src/flameeyes_paperless/identify.py) -/

/-- identify.py lines 48-54: normalize each account holder through
`normalize_account_holder_name` and the account-holder alias table, and
resolve the service name and document type through their alias tables. -/
def normalize_components (lib : RenamerLib) (cfg : Config) (result : NameComponents) :
    NameComponents :=
  { result with
    account_holder := result.account_holder.map
      (fun name => cfg.lookup_account_holder (lib.normalize_account_holder_name name))
    service_name := cfg.lookup_correspondent result.service_name
    document_type := cfg.lookup_document_type result.document_type }

/-- identify.py lines 75-79: the ids of the custom fields about to be
overwritten.  The source collects them in a `set` used only for membership
tests, modelled as a list. -/
def overwrite_field_ids (fah fan fdn : RemoteObject) (result : NameComponents) :
    List Int :=
  [fah.id]
    ++ (if result.account_number.isSome then [fan.id] else [])
    ++ (if result.document_number.isSome then [fdn.id] else [])

/-- identify.py lines 81-98: drop every existing value entry for a field
being overwritten, then append the account-holder entry and, when detected,
the account-number and document-number entries. -/
def reconcile_custom_fields (fah fan fdn : RemoteObject) (result : NameComponents)
    (account_holder_name : String) (values : List CustomFieldValue) :
    List CustomFieldValue :=
  let kept := values.filter
    (fun cfv => !(overwrite_field_ids fah fan fdn result).contains cfv.field)
  kept ++ [⟨fah.id, account_holder_name⟩]
    ++ (match result.account_number with
        | some v => [⟨fan.id, v⟩]
        | none => [])
    ++ (match result.document_number with
        | some v => [⟨fdn.id, v⟩]
        | none => [])

/-- Errors that escape `identify_document` as exceptions (as opposed to the
logged skip paths, which return `None`): a missing or ambiguous custom
field, tag or ensure target.  `fuelExhausted` is the embedding artefact of
the unbounded `ensure_*` recursion, see `EnsureFailure`. -/
inductive PipelineFailure where
  | notFound
  | ambiguous
  | fuelExhausted
deriving DecidableEq, Repr

/-- Map a lookup failure to the exception it raises out of the pipeline. -/
def PipelineFailure.ofLookup : LookupFailure → PipelineFailure
  | .notFound => .notFound
  | .ambiguous => .ambiguous

/-- Map an ensure failure to the exception it raises out of the pipeline. -/
def PipelineFailure.ofEnsure : EnsureFailure → PipelineFailure
  | .ambiguous => .ambiguous
  | .fuelExhausted => .fuelExhausted

/-- identify.py `identify_document` (lines 19-103).  Arguments mirror the
call: the opaque `pdfrename` entry points, the configuration, the
`--execute` flag, the server state, the in-memory document and the outcome
of extraction over the document's original content (the download and
temporary file of lines 34-36 only feed the extraction engine).

Result on normal return: `(returned, docPost, serverPost, creates)` where
`returned` is the function's return value (`none` on the logged skip paths),
`docPost` the post-state of the in-memory (mutated in place) document,
`serverPost` the server state after any `ensure_*` creations and `creates`
the number of create requests issued.  The `ensure_*` calls run with fuel 2,
which `ensure_correspondent_fuel_sufficient` below shows is never exhausted
against the list-backed server. -/
def identify_document (lib : RenamerLib) (cfg : Config) (execute : Bool)
    (st : ServerState) (doc : Document) (extraction : ExtractionOutcome) :
    Except PipelineFailure (Option Document × Document × ServerState × Nat) :=
  match lookup_custom_field st "Account Holder" with
  | .error e => .error (.ofLookup e)
  | .ok field_account_holder =>
  match lookup_custom_field st "Account Number" with
  | .error e => .error (.ofLookup e)
  | .ok field_account_number =>
  match lookup_custom_field st "Document Number" with
  | .error e => .error (.ofLookup e)
  | .ok field_document_number =>
  match extraction with
  | .engineError => .ok (none, doc, st, 0)
  | .results candidates =>
  match one candidates with
  | .error _ => .ok (none, doc, st, 0)
  | .ok result0 =>
  let result := normalize_components lib cfg result0
  match lib.render_filename result with
  | none => .ok (none, doc, st, 0)
  | some filename =>
  let doc := { doc with title := pyRemovesuffix filename ".pdf" }
  let doc := { doc with created_date := result.date.strftime_ymd }
  let account_holder_name := String.intercalate " & " result.account_holder
  let step : Except PipelineFailure (Document × ServerState × Nat) :=
    if execute then
      let r1 := ensure_correspondent correspondentApi 2 st result.service_name
      match r1.1 with
      | .error e => .error (.ofEnsure e)
      | .ok correspondent =>
        let doc := { doc with correspondent := some correspondent.id }
        let r2 := ensure_document_type documentTypeApi 2 r1.2.1 result.document_type
        match r2.1 with
        | .error e => .error (.ofEnsure e)
        | .ok document_type =>
          .ok ({ doc with document_type := some document_type.id }, r2.2.1,
            r1.2.2 + r2.2.2)
    else
      .ok (doc, st, 0)
  match step with
  | .error e => .error e
  | .ok (doc, st, creates) =>
  let doc := { doc with
    custom_field_values :=
      reconcile_custom_fields field_account_holder field_account_number
        field_document_number result account_holder_name doc.custom_field_values }
  match cfg.predefined_tags_identified with
  | none => .ok (some doc, doc, st, creates)
  | some identified_tag_name =>
    -- Python truthiness: an empty configured name is falsy and skips the block.
    if identified_tag_name == "" then .ok (some doc, doc, st, creates)
    else
      match lookup_tag st identified_tag_name with
      | .error e => .error (.ofLookup e)
      | .ok identified_tag =>
        let doc := { doc with tags := doc.tags ++ [identified_tag.id] }
        .ok (some doc, doc, st, creates)

/-! ## Permission serialization (src/flameeyes_paperless/types.py lines 37-71)

Python `set[int]` is modelled as `Finset Int`: unordered, deduplicated,
with extensional equality, exactly the semantics of Python set `==`. -/

/-- `types.py` `UsersAndGroups` (lines 37-41). -/
structure UsersAndGroups where
  users : Finset Int
  groups : Finset Int
deriving DecidableEq

/-- `types.py` `Permission` (lines 43-46). -/
structure Permission where
  view : UsersAndGroups
  change : UsersAndGroups
deriving DecidableEq

/-- The JSON dict `{"users": [...], "groups": [...]}`. -/
structure UsersAndGroupsJson where
  users : List Int
  groups : List Int
deriving DecidableEq, Repr

/-- The JSON dict emitted by `Permission.to_json` and consumed by
`Permission.from_json`. -/
structure PermissionJson where
  view : UsersAndGroupsJson
  change : UsersAndGroupsJson
deriving DecidableEq, Repr

/-- Python `sorted` over a set of ints: the elements in ascending order. -/
def pySorted (s : Finset Int) : List Int :=
  s.sort (· ≤ ·)

/-- `types.py` `Permission.to_json` (lines 61-71). -/
def Permission.to_json (p : Permission) : PermissionJson :=
  { view := { users := pySorted p.view.users, groups := pySorted p.view.groups }
    change := { users := pySorted p.change.users, groups := pySorted p.change.groups } }

/-- `types.py` `Permission.from_json` (lines 48-59): each JSON list is
poured into a fresh set. -/
def Permission.from_json (j : PermissionJson) : Permission :=
  { view := { users := j.view.users.toFinset, groups := j.view.groups.toFinset }
    change := { users := j.change.users.toFinset, groups := j.change.groups.toFinset } }

/-! ## The provisioning reconciler (src/flameeyes_paperless/main.py lines 63-79)

`ensure_setup` walks every tag (then every correspondent and document type,
with identical code) and, when the default access group or owner is missing,
repairs and persists the object.  The repair calls
`tag.actual_permissions.change.groups.append(...)` — but `groups` is a
Python `set[int]` (types.py line 40, built by `set(...)` in
`Permission.from_json`), and `set` has no `append` method, so the call
raises `AttributeError`. -/

/-- The dynamic failure of calling a missing attribute. -/
inductive PyFailure where
  | attributeError
deriving DecidableEq, Repr

/-- The method call `groups.append(group_id)` on a `set[int]` value: Python
resolves the attribute `append` on `set`, which does not exist, so the call
raises `AttributeError` regardless of the arguments. -/
def pySetAppend (_groups : Finset Int) (_group_id : Int) :
    Except PyFailure (Finset Int) :=
  .error .attributeError

/-- A tag as listed by `s.tags(full_permissions=True)`: the `assert` on
main.py line 66 guarantees `actual_permissions` is populated. -/
structure TagWithPerms where
  id : Int
  name : String
  owner : Option Int
  actual_permissions : Permission
deriving DecidableEq

/-- main.py lines 64-79, the per-tag body of `ensure_setup`: compute
`changed`, and if executing and changed, set the owner, append the access
group to `change.groups` and persist via `update_tag`.  Result on normal
return: the tag's post-state and whether `update_tag` was called.  The
correspondent loop (lines 81-103) and document-type loop (lines 105-127)
repeat this code verbatim on their collections. -/
def ensure_setup_tag (execute : Bool) (object_owner_id : Int)
    (all_access_group_id : Int) (tag : TagWithPerms) :
    Except PyFailure (TagWithPerms × Bool) :=
  let changed := decide (all_access_group_id ∉ tag.actual_permissions.change.groups)
    || decide (tag.owner ≠ some object_owner_id)
  if execute && changed then
    let tag := { tag with owner := some object_owner_id }
    match pySetAppend tag.actual_permissions.change.groups all_access_group_id with
    | .error e => .error e
    | .ok groups =>
      .ok ({ tag with actual_permissions :=
        { tag.actual_permissions with change :=
          { tag.actual_permissions.change with groups := groups } } }, true)
  else
    .ok (tag, false)

/-! ## The identify-all batch driver (src/flameeyes_paperless/main.py lines 204-254)

`identify_all` resolves the exclusion/inclusion tag ids and then walks
`s.documents()` (ordered by id, mime-filtered server side), skipping
non-PDF documents, documents whose tag set meets `excluded_tags` and, with
`--only-inbox`, documents missing the inbox tag.  The selection below
reproduces lines 211-247 up to the point where a document is handed to
`identify_document`. -/

/-- Exceptions that abort `identify_all` before or during selection:
`usageError` is the `click.UsageError` of lines 211-214, `keyError` the
`KeyError` from subscripting `cfg.predefined_tags` with a missing key, and
the lookup failures those of `lookup_tag`. -/
inductive DriverFailure where
  | usageError
  | keyError
  | lookupNotFound
  | lookupAmbiguous
deriving DecidableEq, Repr

/-- `lookup_tag(...).id` with its exceptions mapped into the driver. -/
def driver_lookup_tag_id (st : ServerState) (name : String) :
    Except DriverFailure Int :=
  match lookup_tag st name with
  | .ok t => .ok t.id
  | .error .notFound => .error .lookupNotFound
  | .error .ambiguous => .error .lookupAmbiguous

/-- main.py lines 211-247: the documents `identify_all` passes to the
pipeline, in order.  Line 216's guard `"identified" not in
cfg.predefined_tags is None` is a chained comparison whose second conjunct
`cfg.predefined_tags is None` is always false, so the warning never fires
and is omitted.  Line 220 computes `identified_tag_id` under the test
`"identified" not in cfg.predefined_tags` — when that test succeeds the
subscript `cfg.predefined_tags["identified"]` raises `KeyError`, and when
it fails `identified_tag_id` is set to `None`. -/
def identify_all_selection (cfg : Config) (st : ServerState)
    (documents : List Document)
    (exclude_identified exclude_scanned only_inbox : Bool) :
    Except DriverFailure (List Document) :=
  if only_inbox && cfg.predefined_tags_inbox.isNone then .error .usageError
  else
  match
    (if exclude_identified && cfg.predefined_tags_identified.isNone then
      .error .keyError
    else
      .ok (none : Option Int) : Except DriverFailure (Option Int)) with
  | .error e => .error e
  | .ok identified_tag_id =>
  match
    (if exclude_scanned then
      match cfg.predefined_tags_scanned with
      | some name => (driver_lookup_tag_id st name).map some
      | none => .ok none
    else
      .ok none : Except DriverFailure (Option Int)) with
  | .error e => .error e
  | .ok scanned_tag_id =>
  let excluded_tags : List (Option Int) := [identified_tag_id, scanned_tag_id]
  match
    (if only_inbox then
      match cfg.predefined_tags_inbox with
      | some name => (driver_lookup_tag_id st name).map some
      | none => .error .keyError
    else
      .ok none : Except DriverFailure (Option Int)) with
  | .error e => .error e
  | .ok inbox_tag_id =>
  .ok (documents.filter (fun doc =>
    doc.mime_type == "application/pdf"
      && !(doc.tags.any (fun t => excluded_tags.contains (some t)))
      && (!only_inbox || doc.tags.any (fun t => inbox_tag_id == some t))))

/-! ## Pagination continuation URLs (src/flameeyes_paperless/session.py lines 110-201)

URLs are modelled structurally by their `urlsplit` components (the `params`
component of `urlparse` is empty for every URL the code handles and is
folded into `path`).  `_fix_next_url` re-emits the received URL with empty
scheme and netloc; `_normalize_path` joins the result against the
configured server URL and rejects any path that does not live under the
API prefix.  The string round trip between `_fix_next_url` and the
re-parse inside `urljoin` preserves these components (CPython's
`urlunparse` guards a path starting with `//` so that the reparse cannot
read it as a netloc), so the model composes the component transformations
directly. -/

/-- The components of `urlsplit`. -/
structure UrlParts where
  scheme : String
  netloc : String
  path : String
  query : String
  fragment : String
deriving DecidableEq, Repr

/-- CPython `urllib.parse.uses_relative`: the schemes for which `urljoin`
performs relative resolution. -/
def uses_relative (scheme : String) : Bool :=
  ["", "ftp", "http", "gopher", "nntp", "imap", "wais", "file", "https",
    "shttp", "mms", "prospero", "rtsp", "rtspu", "sftp", "svn", "svn+ssh",
    "ws", "wss"].contains scheme

/-- CPython `urllib.parse.urlunsplit`: render components back to a string. -/
def urlunsplit (u : UrlParts) : String :=
  let url := u.path
  let url :=
    if u.netloc != "" || (url.take 2 == "//") then
      "//" ++ u.netloc ++ (if url != "" && !pyStartswith url "/" then "/" ++ url else url)
    else url
  let url := if u.scheme != "" then u.scheme ++ ":" ++ url else url
  let url := if u.query != "" then url ++ "?" ++ u.query else url
  if u.fragment != "" then url ++ "#" ++ u.fragment else url

/-- CPython `urljoin` segment resolution: process `..` (pop, ignoring an
empty stack) and `.` segments left to right. -/
def resolve_segments (acc : List String) : List String → List String
  | [] => acc
  | ".." :: rest => resolve_segments acc.dropLast rest
  | "." :: rest => resolve_segments acc rest
  | seg :: rest => resolve_segments (acc ++ [seg]) rest

/-- CPython path resolution inside `urljoin`: an absolute reference path
restarts at the root, a relative one merges with the base directory; dot
segments are then eliminated as in CPython, including the trailing-slash
repair when the last segment is `.` or `..`, and an empty result maps to
the root path. -/
def joined_path (bpath rpath : String) : String :=
  let segments :=
    if pyStartswith rpath "/" then pySplit '/' rpath
    else (pySplit '/' bpath).dropLast ++ pySplit '/' rpath
  let resolved := resolve_segments [] segments
  let resolved :=
    if segments.getLast? == some "." || segments.getLast? == some ".." then
      resolved ++ [""]
    else resolved
  let joined := String.intercalate "/" resolved
  if joined == "" then "/" else joined

/-- CPython `urllib.parse.urljoin` over components: a relative reference
without scheme inherits the base scheme; a reference with a foreign or
non-relative scheme is returned unchanged; otherwise the base netloc is
kept and the path is resolved through `joined_path`. -/
def urljoin (base rel : UrlParts) : UrlParts :=
  let scheme := if rel.scheme == "" then base.scheme else rel.scheme
  if scheme != base.scheme || !uses_relative scheme then rel
  else if rel.netloc != "" then { rel with scheme := scheme }
  else if rel.path == "" then
    { scheme := scheme, netloc := base.netloc, path := base.path
      query := if rel.query == "" then base.query else rel.query
      fragment := rel.fragment }
  else
    { scheme := scheme, netloc := base.netloc
      path := joined_path base.path rel.path
      query := rel.query, fragment := rel.fragment }

/-- session.py `_fix_next_url` (lines 161-180): `None` stays `None`; an
actual continuation URL is re-emitted with its scheme and netloc dropped,
keeping path, query and fragment. -/
def fix_next_url : Option UrlParts → Option UrlParts
  | none => none
  | some u => some { scheme := "", netloc := "", path := u.path,
                     query := u.query, fragment := u.fragment }

/-- session.py `_api_path` (lines 110-112): `urljoin(config.url, "api/")`. -/
def api_path (config_url : UrlParts) : UrlParts :=
  urljoin config_url { scheme := "", netloc := "", path := "api/", query := "", fragment := "" }

/-- session.py `_normalize_path` (lines 114-119): join the requested path
against the configured server URL and reject it with `ValueError` unless
the result starts with the API prefix. -/
def normalize_path (config_url : UrlParts) (p : UrlParts) : Except String UrlParts :=
  let path := urljoin config_url p
  if pyStartswith (urlunsplit path) (urlunsplit (api_path config_url)) then .ok path
  else .error "Invalid Paperless API path"

/-- The URL actually fetched for a pagination continuation: `_get_objects`
(line 200) passes `_fix_next_url(resp.json()["next"])` to `_get`, which
normalizes it (line 125).  `none` means the listing is complete and no
request is issued. -/
def continuation_request (config_url : UrlParts) (next_url : Option UrlParts) :
    Option (Except String UrlParts) :=
  (fix_next_url next_url).map (normalize_path config_url)

/-- A remote collection whose lookups persistently report no match.  The
HTTP responses are not constrained by the client code, so this is a valid
behaviour of the remote collaborator; the state counts the create requests
issued. -/
def neverFoundApi : NamedCollectionApi Nat where
  lookup := fun _ _ => .error .notFound
  create := fun n _ _ => n + 1

/-- A tag whose permission snapshot lacks the access group (id 5) and whose
owner differs from the configured owner (id 1): `changed` is true on both
counts. -/
def tagMissingAccess : TagWithPerms :=
  ⟨11, "receipts", none, ⟨⟨∅, ∅⟩, ⟨∅, ∅⟩⟩⟩

/-- A configuration with an `identified` predefined tag. -/
def cfgIdentified : Config := ⟨[], [], some "Identified", none, none⟩

/-- A server holding the identified tag under id 5. -/
def stIdentified : ServerState := ⟨[⟨5, "Identified", "identified"⟩], [], [], [], 0, 0⟩

/-- A PDF document already tagged with the identified tag (id 5). -/
def docAlreadyIdentified : Document :=
  ⟨1, none, none, none, "doc", [5], "", [], "application/pdf"⟩

/-! ## Shared concrete fixture (the scenario of spec section 8) -/

/-- An extraction library whose renderer names the file after the
normalized service name. -/
def renamerFixture : RenamerLib :=
  ⟨fun s => s, fun nc => some (nc.service_name ++ ".pdf")⟩

/-- Aliases mapping `J Smith` to `John Smith` and `Acme Bank` to
`Acme Banking Corp`, with an `Identified` predefined tag. -/
def cfgFixture : Config :=
  ⟨[("J Smith", "John Smith")], [("Acme Bank", "Acme Banking Corp")],
   some "Identified", none, none⟩

/-- A server with the identified tag, the three provisioned custom fields
and no correspondents or document types yet. -/
def stFixture : ServerState :=
  ⟨[⟨7, "Identified", "identified"⟩], [], [],
   [⟨1, "Account Holder", "account-holder"⟩, ⟨2, "Account Number", "account-number"⟩,
    ⟨3, "Document Number", "document-number"⟩], 100, 200⟩

/-- A document with a manually entered document number `OLD-99`. -/
def docFixture : Document :=
  ⟨1, none, none, none, "old", [], "", [⟨3, "OLD-99"⟩], "application/pdf"⟩

/-- The unique extraction candidate: account number detected, document
number not detected. -/
def ncFixture : NameComponents :=
  ⟨["J Smith"], "Acme Bank", "invoice", ⟨2024, 3, 1⟩, some "123", none⟩

/-- The document produced by the execute run of the pipeline over the
fixture. -/
def docIdentified : Document :=
  ⟨1, some 100, some 200, none, "Acme Banking Corp", [7], "2024-03-01",
   [⟨3, "OLD-99"⟩, ⟨1, "John Smith"⟩, ⟨2, "123"⟩], "application/pdf"⟩

/-- The server state produced by the execute run of the pipeline over the
fixture: the correspondent and the document type have been created. -/
def stAfterRun : ServerState :=
  ⟨[⟨7, "Identified", "identified"⟩],
   [⟨100, "Acme Banking Corp", "acme-banking-corp"⟩],
   [⟨200, "invoice", "invoice"⟩],
   [⟨1, "Account Holder", "account-holder"⟩, ⟨2, "Account Number", "account-number"⟩,
    ⟨3, "Document Number", "document-number"⟩], 101, 201⟩

/-! ## Helper lemmas -/

theorem one_eq_ok {l : List α} {a : α} (h : one l = .ok a) : l = [a] := by
  match l with
  | [] => simp [one] at h
  | [b] => simp only [one, Except.ok.injEq] at h; rw [h]
  | _ :: _ :: _ => simp [one] at h

theorem one_eq_notFound {l : List α} (h : one l = .error .notFound) : l = [] := by
  match l with
  | [] => rfl
  | [b] => simp [one] at h
  | _ :: _ :: _ => simp [one] at h

theorem one_of_two_le {l : List α} (h : 2 ≤ l.length) : one l = .error .ambiguous := by
  match l with
  | [] => simp at h
  | [b] => simp at h
  | _ :: _ :: _ => rfl

theorem name_matches_self (name : String) (id : Int) (slug : String) :
    name_matches name ⟨id, name, slug⟩ = true := by
  simp [name_matches]

theorem lookup_by_name_ok {objs : List RemoteObject} {name : String}
    {e : RemoteObject} (h : lookup_by_name objs name = .ok e) :
    objs.filter (name_matches name) = [e] :=
  one_eq_ok h

theorem lookup_by_name_notFound {objs : List RemoteObject} {name : String}
    (h : lookup_by_name objs name = .error .notFound) :
    objs.filter (name_matches name) = [] :=
  one_eq_notFound h

/-- After a create against the list-backed correspondents collection for a
name with no prior match, the lookup finds exactly the created object. -/
theorem lookup_correspondent_after_create {st : ServerState} {name : String}
    (h : lookup_correspondent st name = .error .notFound) (slug : String) :
    lookup_correspondent (correspondentApi.create st name slug) name =
      .ok ⟨st.nextCorrespondentId, name, slug⟩ := by
  have hempty := lookup_by_name_notFound h
  simp only [lookup_correspondent, lookup_by_name, correspondentApi,
    List.filter_append, hempty, List.filter_cons, List.filter_nil,
    name_matches_self, List.nil_append, if_pos]
  rfl

/-- Same fact for the list-backed document-types collection. -/
theorem lookup_document_type_after_create {st : ServerState} {name : String}
    (h : lookup_document_type st name = .error .notFound) (slug : String) :
    lookup_document_type (documentTypeApi.create st name slug) name =
      .ok ⟨st.nextDocumentTypeId, name, slug⟩ := by
  have hempty := lookup_by_name_notFound h
  simp only [lookup_document_type, lookup_by_name, documentTypeApi,
    List.filter_append, hempty, List.filter_cons, List.filter_nil,
    name_matches_self, List.nil_append, if_pos]
  rfl

/-- The unfolding of `ensure_correspondent` at non-zero fuel. -/
theorem ensure_correspondent_step {σ : Type} (api : NamedCollectionApi σ)
    (n : Nat) (st : σ) (name : String) :
    ensure_correspondent api (n + 1) st name =
      match api.lookup st name with
      | .ok obj => (.ok obj, st, 0)
      | .error .ambiguous => (.error .ambiguous, st, 0)
      | .error .notFound =>
        ((ensure_correspondent api n (api.create st name (to_slug name)) name).1,
         (ensure_correspondent api n (api.create st name (to_slug name)) name).2.1,
         (ensure_correspondent api n (api.create st name (to_slug name)) name).2.2 + 1) :=
  rfl

/-- `correspondentApi` looks up with `lookup_correspondent`. -/
theorem correspondentApi_lookup_eq (st : ServerState) (name : String) :
    correspondentApi.lookup st name = lookup_correspondent st name := rfl

/-- The unfolding of `ensure_document_type` at non-zero fuel. -/
theorem ensure_document_type_step {σ : Type} (api : NamedCollectionApi σ)
    (n : Nat) (st : σ) (name : String) :
    ensure_document_type api (n + 1) st name =
      match api.lookup st name with
      | .ok obj => (.ok obj, st, 0)
      | .error .ambiguous => (.error .ambiguous, st, 0)
      | .error .notFound =>
        ((ensure_document_type api n (api.create st name (to_slug name)) name).1,
         (ensure_document_type api n (api.create st name (to_slug name)) name).2.1,
         (ensure_document_type api n (api.create st name (to_slug name)) name).2.2 + 1) :=
  rfl

/-- `documentTypeApi` looks up with `lookup_document_type`. -/
theorem documentTypeApi_lookup_eq (st : ServerState) (name : String) :
    documentTypeApi.lookup st name = lookup_document_type st name := rfl

/-- When the entity is already found, `ensure_correspondent` returns it
with the state untouched and zero creates, at any non-zero fuel. -/
theorem ensure_correspondent_of_found {σ : Type} {api : NamedCollectionApi σ}
    {st : σ} {name : String} {e : RemoteObject} (n : Nat)
    (h : api.lookup st name = .ok e) :
    ensure_correspondent api (n + 1) st name = (.ok e, st, 0) := by
  rw [ensure_correspondent_step api n st name, h]

/-- When the entity is already found, `ensure_document_type` returns it
with the state untouched and zero creates, at any non-zero fuel. -/
theorem ensure_document_type_of_found {σ : Type} {api : NamedCollectionApi σ}
    {st : σ} {name : String} {e : RemoteObject} (n : Nat)
    (h : api.lookup st name = .ok e) :
    ensure_document_type api (n + 1) st name = (.ok e, st, 0) := by
  rw [ensure_document_type_step api n st name, h]

/-- A run of `ensure_correspondent` against the list-backed server with
fuel 2, fully evaluated: found entities are returned as is, an absent name
leads to exactly one create followed by the re-lookup that finds the
created object. -/
theorem ensure_correspondent_two (st : ServerState) (name : String) :
    ensure_correspondent correspondentApi 2 st name =
      match lookup_correspondent st name with
      | .ok obj => (.ok obj, st, 0)
      | .error .ambiguous => (.error .ambiguous, st, 0)
      | .error .notFound =>
        (.ok ⟨st.nextCorrespondentId, name, to_slug name⟩,
         correspondentApi.create st name (to_slug name), 1) := by
  rw [ensure_correspondent_step correspondentApi 1 st name,
    correspondentApi_lookup_eq st name]
  cases hl : lookup_correspondent st name with
  | ok obj => rfl
  | error fail =>
    cases fail with
    | ambiguous => rfl
    | notFound =>
      have hl2 := lookup_correspondent_after_create hl (to_slug name)
      rw [ensure_correspondent_step correspondentApi 0, correspondentApi_lookup_eq, hl2]

/-- A run of `ensure_document_type` against the list-backed server with
fuel 2, fully evaluated. -/
theorem ensure_document_type_two (st : ServerState) (name : String) :
    ensure_document_type documentTypeApi 2 st name =
      match lookup_document_type st name with
      | .ok obj => (.ok obj, st, 0)
      | .error .ambiguous => (.error .ambiguous, st, 0)
      | .error .notFound =>
        (.ok ⟨st.nextDocumentTypeId, name, to_slug name⟩,
         documentTypeApi.create st name (to_slug name), 1) := by
  rw [ensure_document_type_step documentTypeApi 1 st name,
    documentTypeApi_lookup_eq st name]
  cases hl : lookup_document_type st name with
  | ok obj => rfl
  | error fail =>
    cases fail with
    | ambiguous => rfl
    | notFound =>
      have hl2 := lookup_document_type_after_create hl (to_slug name)
      rw [ensure_document_type_step documentTypeApi 0, documentTypeApi_lookup_eq, hl2]

/-- Characterization of a successful `ensure_correspondent` run against the
list-backed server with fuel 2: the returned entity is subsequently found
by lookup in the resulting state, and every collection other than the
correspondents is untouched. -/
theorem ensure_correspondent_spec {st st2 : ServerState} {name : String}
    {e : RemoteObject} {k : Nat}
    (h : ensure_correspondent correspondentApi 2 st name = (.ok e, st2, k)) :
    lookup_correspondent st2 name = .ok e ∧
    st2.tags = st.tags ∧ st2.document_types = st.document_types ∧
    st2.custom_fields = st.custom_fields ∧
    st2.nextDocumentTypeId = st.nextDocumentTypeId := by
  rw [ensure_correspondent_two st name] at h
  cases hl : lookup_correspondent st name with
  | ok obj =>
    rw [hl] at h
    simp only [Prod.mk.injEq, Except.ok.injEq] at h
    obtain ⟨he, hst, -⟩ := h
    subst he; subst hst
    exact ⟨hl, rfl, rfl, rfl, rfl⟩
  | error fail =>
    cases fail with
    | ambiguous => rw [hl] at h; simp at h
    | notFound =>
      have hl2 := lookup_correspondent_after_create hl (to_slug name)
      rw [hl] at h
      simp only [Prod.mk.injEq, Except.ok.injEq] at h
      obtain ⟨he, hst, -⟩ := h
      subst he; subst hst
      exact ⟨hl2, rfl, rfl, rfl, rfl⟩

/-- Characterization of a successful `ensure_document_type` run against the
list-backed server with fuel 2. -/
theorem ensure_document_type_spec {st st2 : ServerState} {name : String}
    {e : RemoteObject} {k : Nat}
    (h : ensure_document_type documentTypeApi 2 st name = (.ok e, st2, k)) :
    lookup_document_type st2 name = .ok e ∧
    st2.tags = st.tags ∧ st2.correspondents = st.correspondents ∧
    st2.custom_fields = st.custom_fields ∧
    st2.nextCorrespondentId = st.nextCorrespondentId := by
  rw [ensure_document_type_two st name] at h
  cases hl : lookup_document_type st name with
  | ok obj =>
    rw [hl] at h
    simp only [Prod.mk.injEq, Except.ok.injEq] at h
    obtain ⟨he, hst, -⟩ := h
    subst he; subst hst
    exact ⟨hl, rfl, rfl, rfl, rfl⟩
  | error fail =>
    cases fail with
    | ambiguous => rw [hl] at h; simp at h
    | notFound =>
      have hl2 := lookup_document_type_after_create hl (to_slug name)
      rw [hl] at h
      simp only [Prod.mk.injEq, Except.ok.injEq] at h
      obtain ⟨he, hst, -⟩ := h
      subst he; subst hst
      exact ⟨hl2, rfl, rfl, rfl, rfl⟩

/-! ## Claim C7: name lookup semantics -/

/-- C7: name lookup over a remote collection (the body shared by
`lookup_tag`, `lookup_correspondent`, `lookup_document_type`,
`lookup_storage_path`, `lookup_custom_field`) matches case-insensitively
and exactly: zero matches fail with the not-found error, two or more
case-insensitive exact matches fail with the distinct ambiguity error
rather than returning an entity, and a successful lookup means the match
was unique. -/
theorem C7_lookup_case_insensitive_exact (objs : List RemoteObject) (name : String) :
    (objs.filter (name_matches name) = [] →
      lookup_by_name objs name = .error .notFound)
    ∧ (2 ≤ (objs.filter (name_matches name)).length →
      lookup_by_name objs name = .error .ambiguous)
    ∧ (∀ e, lookup_by_name objs name = .ok e →
      objs.filter (name_matches name) = [e]) := by
  refine ⟨fun h => ?_, fun h => ?_, fun e h => lookup_by_name_ok h⟩
  · rw [lookup_by_name, h]; rfl
  · rw [lookup_by_name, one_of_two_le h]

/-- Witness for C7: entities named `Acme` and `acme` coexisting make the
lookup of either casing fail as ambiguous, never returning an entity. -/
theorem C7_lookup_case_insensitive_exact_witness :
    lookup_by_name [⟨1, "Acme", "acme"⟩, ⟨2, "acme", "acme"⟩] "Acme"
      = .error .ambiguous
    ∧ lookup_by_name [⟨1, "Acme", "acme"⟩, ⟨2, "acme", "acme"⟩] "acme"
      = .error .ambiguous :=
  ⟨(C7_lookup_case_insensitive_exact [⟨1, "Acme", "acme"⟩, ⟨2, "acme", "acme"⟩]
      "Acme").2.1 (by decide),
   (C7_lookup_case_insensitive_exact [⟨1, "Acme", "acme"⟩, ⟨2, "acme", "acme"⟩]
      "acme").2.1 (by decide)⟩

/-! ## Claim C10: Permission serialization round trip and determinism -/

/-- C10: `Permission.from_json ∘ Permission.to_json` is the identity, and
`to_json` is deterministic: each emitted id list is ascending, and the
emitted lists depend only on the set of ids, not on any order in which the
in-memory set was built. -/
theorem C10_permission_roundtrip (p : Permission) :
    Permission.from_json (Permission.to_json p) = p
    ∧ List.Sorted (· ≤ ·) (Permission.to_json p).view.users
    ∧ List.Sorted (· ≤ ·) (Permission.to_json p).view.groups
    ∧ List.Sorted (· ≤ ·) (Permission.to_json p).change.users
    ∧ List.Sorted (· ≤ ·) (Permission.to_json p).change.groups
    ∧ (∀ l1 l2 : List Int, l1.Perm l2 →
        pySorted l1.toFinset = pySorted l2.toFinset) := by
  refine ⟨?_, Finset.sort_sorted _ _, Finset.sort_sorted _ _,
    Finset.sort_sorted _ _, Finset.sort_sorted _ _,
    fun l1 l2 hperm => by rw [List.toFinset_eq_of_perm l1 l2 hperm]⟩
  obtain ⟨⟨vu, vg⟩, ⟨cu, cg⟩⟩ := p
  simp [Permission.from_json, Permission.to_json, pySorted, Finset.sort_toFinset]

/-- Witness for C10 at a concrete permission and a concrete pair of
reordered id lists. -/
theorem C10_permission_roundtrip_witness :
    Permission.from_json (Permission.to_json
        ⟨⟨{1, 2}, {3}⟩, ⟨∅, {4, 9}⟩⟩) = ⟨⟨{1, 2}, {3}⟩, ⟨∅, {4, 9}⟩⟩
    ∧ pySorted ([9, 4, 2] : List Int).toFinset
      = pySorted ([2, 9, 4] : List Int).toFinset :=
  ⟨(C10_permission_roundtrip ⟨⟨{1, 2}, {3}⟩, ⟨∅, {4, 9}⟩⟩).1,
   (C10_permission_roundtrip ⟨⟨{1, 2}, {3}⟩, ⟨∅, {4, 9}⟩⟩).2.2.2.2.2
     [9, 4, 2] [2, 9, 4] (by decide)⟩

/-! ## Claim C5: the ensure create-then-retry pattern

The claim asserts the recursion is bounded to exactly one retry, a second
not-found being surfaced as a distinct fatal inconsistency error.  The
source recursion has no such bound: every further not-found issues a
further create and retries. -/

/-- Counterexample to C5: against a collection that keeps answering
not-found, `ensure_correspondent` run with fuel 3 issues three create
calls — more than the single retry the claim allows — and is still
retrying (fuel exhausted) instead of surfacing a distinct
inconsistent-remote-state error. -/
theorem C5_counterexample_unbounded_creates :
    ensure_correspondent neverFoundApi 3 0 "Acme"
      = (.error .fuelExhausted, 3, 3)
    ∧ ¬ (ensure_correspondent neverFoundApi 3 0 "Acme").2.2 ≤ 1 := by
  constructor <;> decide

/-- C5 as amended: `ensure_correspondent`/`ensure_document_type` look up
and return the entity with zero creates when it exists; on not-found they
issue one create and retry the whole ensure recursively with no bound, so
a persistently failing lookup yields one further create per retry, without
ever producing a distinct fatal error. -/
theorem C5_amended_ensure_retry {σ : Type} (api : NamedCollectionApi σ)
    (st : σ) (name : String) :
    (∀ (e : RemoteObject) (n : Nat), api.lookup st name = .ok e →
      ensure_correspondent api (n + 1) st name = (.ok e, st, 0)
      ∧ ensure_document_type api (n + 1) st name = (.ok e, st, 0))
    ∧ (∀ n : Nat, api.lookup st name = .error .notFound →
      (ensure_correspondent api (n + 1) st name).2.2 =
        (ensure_correspondent api n (api.create st name (to_slug name)) name).2.2 + 1
      ∧ (ensure_document_type api (n + 1) st name).2.2 =
        (ensure_document_type api n (api.create st name (to_slug name)) name).2.2 + 1)
    ∧ (∀ c n : Nat,
      ensure_correspondent neverFoundApi n c name = (.error .fuelExhausted, c + n, n)) := by
  refine ⟨fun e n h => ⟨ensure_correspondent_of_found n h,
    ensure_document_type_of_found n h⟩, fun n h => ?_, fun c n => ?_⟩
  · rw [ensure_correspondent_step api n st name, h,
      ensure_document_type_step api n st name, h]
    exact ⟨rfl, rfl⟩
  · induction n generalizing c with
    | zero => rfl
    | succ m ih =>
      rw [ensure_correspondent_step neverFoundApi m c name]
      show ((ensure_correspondent neverFoundApi m (c + 1) name).1,
        (ensure_correspondent neverFoundApi m (c + 1) name).2.1,
        (ensure_correspondent neverFoundApi m (c + 1) name).2.2 + 1) = _
      rw [ih (c + 1)]
      show (Except.error EnsureFailure.fuelExhausted, c + 1 + m, m + 1) = _
      rw [Nat.add_right_comm c 1 m]
      rfl

/-- Witness for the amended C5: a present entity is returned with zero
creates; a missing one adds a create per retry; the persistent-not-found
run exhausts any fuel. -/
theorem C5_amended_ensure_retry_witness :
    ensure_correspondent correspondentApi 1
        ⟨[], [⟨9, "Acme", "acme"⟩], [], [], 10, 20⟩ "acme"
      = (.ok ⟨9, "Acme", "acme"⟩, ⟨[], [⟨9, "Acme", "acme"⟩], [], [], 10, 20⟩, 0)
    ∧ (ensure_correspondent neverFoundApi 3 0 "x").2.2 =
        (ensure_correspondent neverFoundApi 2 (neverFoundApi.create 0 "x" (to_slug "x")) "x").2.2 + 1
    ∧ ensure_correspondent neverFoundApi 5 0 "x" = (.error .fuelExhausted, 5, 5) :=
  ⟨((C5_amended_ensure_retry correspondentApi
      ⟨[], [⟨9, "Acme", "acme"⟩], [], [], 10, 20⟩ "acme").1
      ⟨9, "Acme", "acme"⟩ 0 (by decide)).1,
   ((C5_amended_ensure_retry neverFoundApi 0 "x").2.1 2 rfl).1,
   (C5_amended_ensure_retry neverFoundApi 0 "x").2.2 0 5⟩

/-! ## Claim C4: the provisioning repair crashes on its append -/

/-- C4 fails on the code: for a tag whose `changed` flag is true, the
execute-mode repair does not leave the access group present and the update
persisted — it raises `AttributeError`, because line 78 of main.py calls
`.append` on `change.groups`, which is a Python `set`.  (Independently,
`ensure_setup` cannot even reach this loop as shipped: line 54 reads
`s.default_owner`, an attribute `PaperlessSession` does not define.) -/
theorem C4_ensure_setup_append_attribute_error :
    (5 : Int) ∉ tagMissingAccess.actual_permissions.change.groups
    ∧ ensure_setup_tag true 1 5 tagMissingAccess = .error .attributeError := by
  constructor <;> decide

/-! ## Claim C6: exclusion of already-identified documents -/

/-- C6 fails on the code: with exclusion of already-identified documents
enabled and an `identified` tag configured and resolvable (to id 5), the
`identify_all` selection does not resolve the tag id (line 220 of main.py
tests `"identified" not in cfg.predefined_tags`, which is false exactly
when the tag is configured, so `identified_tag_id` stays `None`) and a
document carrying the tag is still passed to the pipeline. -/
theorem C6_identified_documents_not_excluded :
    lookup_tag stIdentified "Identified" = .ok ⟨5, "Identified", "identified"⟩
    ∧ (5 : Int) ∈ docAlreadyIdentified.tags
    ∧ identify_all_selection cfgIdentified stIdentified [docAlreadyIdentified]
        true true false = .ok [docAlreadyIdentified] := by
  refine ⟨by decide, by decide, by decide⟩

/-! ## Claim C9: continuation URLs never leave the configured server -/

/-- Joining a scheme-and-netloc-stripped reference against the configured
base keeps the base scheme and netloc, whatever the path: exactly the
branches of `urljoin` reachable with an empty reference scheme and netloc. -/
theorem urljoin_stripped_parts (base : UrlParts) (p q f : String)
    (h : uses_relative base.scheme = true) :
    (urljoin base ⟨"", "", p, q, f⟩).scheme = base.scheme ∧
    (urljoin base ⟨"", "", p, q, f⟩).netloc = base.netloc := by
  have hjoin : urljoin base ⟨"", "", p, q, f⟩ =
      if (base.scheme != base.scheme || !uses_relative base.scheme) = true then
        ⟨"", "", p, q, f⟩
      else if (p == "") = true then
        ⟨base.scheme, base.netloc, base.path,
          if (q == "") = true then base.query else q, f⟩
      else
        ⟨base.scheme, base.netloc, joined_path base.path p, q, f⟩ := rfl
  rw [hjoin, bne_self_eq_false, h]
  simp only [Bool.not_true, Bool.false_or, Bool.false_eq_true, if_false]
  constructor <;> split <;> rfl

/-- C9: for every paginated listing over an `http`/`https` server URL, the
continuation URL given by the server has its scheme and host stripped
(`fix_next_url`) before reuse, and the continuation request that is
actually issued (`normalize_path` of the stripped URL) carries the
configured server's scheme and host and resolves under the configured API
prefix — any other path is rejected with an error instead of being
fetched.  In particular an absolute HTTP or cross-host continuation URL
can never cause a request to a different host or a protocol downgrade. -/
theorem C9_continuation_stays_on_server (config_url next_url u : UrlParts)
    (hscheme : config_url.scheme = "http" ∨ config_url.scheme = "https")
    (h : continuation_request config_url (some next_url) = some (.ok u)) :
    u.scheme = config_url.scheme ∧ u.netloc = config_url.netloc ∧
    pyStartswith (urlunsplit u) (urlunsplit (api_path config_url)) = true := by
  have husesrel : uses_relative config_url.scheme = true := by
    rcases hscheme with h1 | h1 <;> rw [h1] <;> rfl
  have hfix : continuation_request config_url (some next_url)
      = some (normalize_path config_url
          ⟨"", "", next_url.path, next_url.query, next_url.fragment⟩) := rfl
  rw [hfix] at h
  injection h with h
  replace h : (if pyStartswith
        (urlunsplit (urljoin config_url
          ⟨"", "", next_url.path, next_url.query, next_url.fragment⟩))
        (urlunsplit (api_path config_url)) = true then
      Except.ok (urljoin config_url
        ⟨"", "", next_url.path, next_url.query, next_url.fragment⟩)
    else (Except.error "Invalid Paperless API path" :
      Except String UrlParts)) = Except.ok u := h
  split at h
  · next hpre =>
    obtain rfl : urljoin config_url
        ⟨"", "", next_url.path, next_url.query, next_url.fragment⟩ = u := by
      injection h
    obtain ⟨h1, h2⟩ := urljoin_stripped_parts config_url
      next_url.path next_url.query next_url.fragment husesrel
    exact ⟨h1, h2, hpre⟩
  · cases h

/-- Witness for C9: the server answers with an absolute plain-HTTP
continuation URL on a different host; the request actually issued is
against the configured HTTPS server and stays under its API prefix. -/
theorem C9_continuation_stays_on_server_witness :
    UrlParts.scheme ⟨"https", "paperless.example", "/api/documents/", "page=2", ""⟩
      = UrlParts.scheme ⟨"https", "paperless.example", "", "", ""⟩
    ∧ UrlParts.netloc ⟨"https", "paperless.example", "/api/documents/", "page=2", ""⟩
      = UrlParts.netloc ⟨"https", "paperless.example", "", "", ""⟩
    ∧ pyStartswith
        (urlunsplit ⟨"https", "paperless.example", "/api/documents/", "page=2", ""⟩)
        (urlunsplit (api_path ⟨"https", "paperless.example", "", "", ""⟩)) = true :=
  C9_continuation_stays_on_server
    ⟨"https", "paperless.example", "", "", ""⟩
    ⟨"http", "evil.example", "/api/documents/", "page=2", ""⟩
    ⟨"https", "paperless.example", "/api/documents/", "page=2", ""⟩
    (Or.inr rfl) (by decide)

/-! ## Claim C3: skip paths leave the document untouched -/

/-- C3: whenever extraction fails with an engine error, or yields a number
of candidates different from one, `identify_document` returns `None` and
the in-memory document — all of its fields — and the server state are
exactly as before the call, with no create requests issued.  (The three
custom-field lookups at the top of the function are assumed to succeed, as
they do whenever the provisioned fields exist.) -/
theorem C3_skip_paths_no_mutation (lib : RenamerLib) (cfg : Config)
    (execute : Bool) (st : ServerState) (doc : Document)
    (extraction : ExtractionOutcome) (fah fan fdn : RemoteObject)
    (hah : lookup_custom_field st "Account Holder" = .ok fah)
    (han : lookup_custom_field st "Account Number" = .ok fan)
    (hdn : lookup_custom_field st "Document Number" = .ok fdn)
    (hbad : extraction = .engineError ∨
      ∃ candidates, extraction = .results candidates ∧ candidates.length ≠ 1) :
    identify_document lib cfg execute st doc extraction = .ok (none, doc, st, 0) := by
  rcases hbad with hb | ⟨candidates, hb, hlen⟩ <;> subst hb
  · unfold identify_document
    rw [hah, han, hdn]
  · obtain ⟨e, he⟩ : ∃ e, one candidates = .error e := by
      match candidates with
      | [] => exact ⟨.notFound, rfl⟩
      | [a] => simp at hlen
      | a :: b :: l => exact ⟨.ambiguous, rfl⟩
    unfold identify_document
    rw [hah, han, hdn]
    simp only [he]

/-- Witness for C3: a two-candidate extraction (and, via the same theorem,
an engine error) returns `None` with the document unchanged. -/
theorem C3_skip_paths_no_mutation_witness :
    identify_document ⟨fun s => s, fun _ => some "x.pdf"⟩
      ⟨[], [], none, none, none⟩ true
      ⟨[], [], [], [⟨1, "Account Holder", "a"⟩, ⟨2, "Account Number", "b"⟩,
        ⟨3, "Document Number", "c"⟩], 0, 0⟩
      ⟨7, none, none, none, "t", [], "", [], "application/pdf"⟩
      (.results []) = .ok (none,
        ⟨7, none, none, none, "t", [], "", [], "application/pdf"⟩,
        ⟨[], [], [], [⟨1, "Account Holder", "a"⟩, ⟨2, "Account Number", "b"⟩,
          ⟨3, "Document Number", "c"⟩], 0, 0⟩, 0) :=
  C3_skip_paths_no_mutation _ _ _ _ _ _
    ⟨1, "Account Holder", "a"⟩ ⟨2, "Account Number", "b"⟩
    ⟨3, "Document Number", "c"⟩
    (by decide) (by decide) (by decide)
    (Or.inr ⟨[], rfl, by decide⟩)

/-! ## Evaluation lemmas for full pipeline runs -/

/-- Full evaluation of a dry run (`execute = false`) that reaches the
custom-field reconciliation: no ensure calls are made, the server state
and create count stay put, and the only remaining branching is the
optional identified-tag append. -/
theorem identify_document_dry_run (lib : RenamerLib) (cfg : Config)
    (st : ServerState) (doc : Document) (nc : NameComponents)
    (fah fan fdn : RemoteObject) (filename : String)
    (hah : lookup_custom_field st "Account Holder" = .ok fah)
    (han : lookup_custom_field st "Account Number" = .ok fan)
    (hdn : lookup_custom_field st "Document Number" = .ok fdn)
    (hrender : lib.render_filename (normalize_components lib cfg nc) = some filename) :
    identify_document lib cfg false st doc (.results [nc]) =
      (let nc1 := normalize_components lib cfg nc
       let doc1 : Document := { doc with
         title := pyRemovesuffix filename ".pdf"
         created_date := nc1.date.strftime_ymd
         custom_field_values := reconcile_custom_fields fah fan fdn nc1
           (String.intercalate " & " nc1.account_holder) doc.custom_field_values }
       match cfg.predefined_tags_identified with
       | none => .ok (some doc1, doc1, st, 0)
       | some nm =>
         if nm == "" then .ok (some doc1, doc1, st, 0)
         else
           match lookup_tag st nm with
           | .error e => .error (.ofLookup e)
           | .ok t => .ok (some { doc1 with tags := doc1.tags ++ [t.id] },
               { doc1 with tags := doc1.tags ++ [t.id] }, st, 0)) := by
  unfold identify_document
  rw [hah, han, hdn]
  simp only [one, hrender, Bool.false_eq_true, if_false]

/-- Full evaluation of an execute run that reaches the custom-field
reconciliation and whose two ensure calls succeed. -/
theorem identify_document_execute_run (lib : RenamerLib) (cfg : Config)
    (st : ServerState) (doc : Document) (nc : NameComponents)
    (fah fan fdn corr dty : RemoteObject) (filename : String)
    (hah : lookup_custom_field st "Account Holder" = .ok fah)
    (han : lookup_custom_field st "Account Number" = .ok fan)
    (hdn : lookup_custom_field st "Document Number" = .ok fdn)
    (hrender : lib.render_filename (normalize_components lib cfg nc) = some filename)
    (hcorr : (ensure_correspondent correspondentApi 2 st
        (normalize_components lib cfg nc).service_name).1 = .ok corr)
    (hdty : (ensure_document_type documentTypeApi 2
        (ensure_correspondent correspondentApi 2 st
          (normalize_components lib cfg nc).service_name).2.1
        (normalize_components lib cfg nc).document_type).1 = .ok dty) :
    identify_document lib cfg true st doc (.results [nc]) =
      (let nc1 := normalize_components lib cfg nc
       let ens1 := ensure_correspondent correspondentApi 2 st nc1.service_name
       let ens2 := ensure_document_type documentTypeApi 2 ens1.2.1 nc1.document_type
       let doc1 : Document := { doc with
         title := pyRemovesuffix filename ".pdf"
         created_date := nc1.date.strftime_ymd
         correspondent := some corr.id
         document_type := some dty.id
         custom_field_values := reconcile_custom_fields fah fan fdn nc1
           (String.intercalate " & " nc1.account_holder) doc.custom_field_values }
       match cfg.predefined_tags_identified with
       | none => .ok (some doc1, doc1, ens2.2.1, ens1.2.2 + ens2.2.2)
       | some nm =>
         if nm == "" then .ok (some doc1, doc1, ens2.2.1, ens1.2.2 + ens2.2.2)
         else
           match lookup_tag ens2.2.1 nm with
           | .error e => .error (.ofLookup e)
           | .ok t => .ok (some { doc1 with tags := doc1.tags ++ [t.id] },
               { doc1 with tags := doc1.tags ++ [t.id] },
               ens2.2.1, ens1.2.2 + ens2.2.2)) := by
  unfold identify_document
  rw [hah, han, hdn]
  simp only [one, hrender, hcorr, hdty, if_true]

/-! ## The shape of the reconciled custom-field list -/

theorem overwrite_contains_holder (fah fan fdn : RemoteObject) (nc1 : NameComponents) :
    (overwrite_field_ids fah fan fdn nc1).contains fah.id = true := by
  unfold overwrite_field_ids
  simp

theorem overwrite_contains_account (fah fan fdn : RemoteObject) (nc1 : NameComponents)
    (h : nc1.account_number.isSome) :
    (overwrite_field_ids fah fan fdn nc1).contains fan.id = true := by
  unfold overwrite_field_ids
  simp [h]

theorem overwrite_contains_document (fah fan fdn : RemoteObject) (nc1 : NameComponents)
    (h : nc1.document_number.isSome) :
    (overwrite_field_ids fah fan fdn nc1).contains fdn.id = true := by
  unfold overwrite_field_ids
  simp [h]

theorem overwrite_not_contains (fah fan fdn : RemoteObject) (nc1 : NameComponents)
    (t : Int) (h1 : t ≠ fah.id)
    (h2 : nc1.account_number.isSome → t ≠ fan.id)
    (h3 : nc1.document_number.isSome → t ≠ fdn.id) :
    (overwrite_field_ids fah fan fdn nc1).contains t = false := by
  unfold overwrite_field_ids
  cases ha : nc1.account_number <;> cases hd : nc1.document_number <;>
    simp_all

/-- Entries for a field being overwritten do not survive the kept part of
the reconciliation. -/
theorem reconcile_kept_filter_none (fah fan fdn : RemoteObject)
    (nc1 : NameComponents) (values : List CustomFieldValue) (t : Int)
    (hmem : (overwrite_field_ids fah fan fdn nc1).contains t = true) :
    ((values.filter
      (fun cfv => !(overwrite_field_ids fah fan fdn nc1).contains cfv.field)).filter
      (fun c => c.field == t)) = [] := by
  have hmem2 : t ∈ overwrite_field_ids fah fan fdn nc1 := by simpa using hmem
  rw [List.filter_filter]
  apply List.filter_eq_nil_iff.mpr
  intro a _
  by_cases hf : a.field = t
  · rw [hf]
    simp [hmem2]
  · simp [hf]

/-- Entries for a field not being overwritten survive the kept part of the
reconciliation untouched. -/
theorem reconcile_kept_filter_preserved (fah fan fdn : RemoteObject)
    (nc1 : NameComponents) (values : List CustomFieldValue) (t : Int)
    (hmem : (overwrite_field_ids fah fan fdn nc1).contains t = false) :
    ((values.filter
      (fun cfv => !(overwrite_field_ids fah fan fdn nc1).contains cfv.field)).filter
      (fun c => c.field == t)) = values.filter (fun c => c.field == t) := by
  have hmem2 : t ∉ overwrite_field_ids fah fan fdn nc1 := by simpa using hmem
  rw [List.filter_filter]
  apply List.filter_congr
  intro a _
  by_cases hf : a.field = t
  · rw [hf]
    simp [hmem2]
  · simp [hf]

/-- The account-holder field is always fully replaced: after
reconciliation its only value entry is the new joined holder names. -/
theorem reconcile_filter_holder (fah fan fdn : RemoteObject)
    (nc1 : NameComponents) (holder : String) (values : List CustomFieldValue)
    (h1 : fan.id ≠ fah.id) (h2 : fdn.id ≠ fah.id) :
    (reconcile_custom_fields fah fan fdn nc1 holder values).filter
      (fun c => c.field == fah.id) = [⟨fah.id, holder⟩] := by
  unfold reconcile_custom_fields
  simp only [List.filter_append]
  rw [reconcile_kept_filter_none fah fan fdn nc1 values fah.id
    (overwrite_contains_holder fah fan fdn nc1)]
  cases ha : nc1.account_number <;> cases hd : nc1.document_number <;>
    simp [h1, h2]

/-- A detected account number fully replaces the account-number field. -/
theorem reconcile_filter_account_some (fah fan fdn : RemoteObject)
    (nc1 : NameComponents) (holder : String) (values : List CustomFieldValue)
    (v : String) (hv : nc1.account_number = some v)
    (h1 : fah.id ≠ fan.id) (h2 : fdn.id ≠ fan.id) :
    (reconcile_custom_fields fah fan fdn nc1 holder values).filter
      (fun c => c.field == fan.id) = [⟨fan.id, v⟩] := by
  unfold reconcile_custom_fields
  simp only [List.filter_append]
  rw [reconcile_kept_filter_none fah fan fdn nc1 values fan.id
    (overwrite_contains_account fah fan fdn nc1 (by rw [hv]; rfl))]
  cases hd : nc1.document_number <;> simp [hv, h1, h2]

/-- An undetected account number leaves the pre-existing account-number
value entries exactly as they were. -/
theorem reconcile_filter_account_none (fah fan fdn : RemoteObject)
    (nc1 : NameComponents) (holder : String) (values : List CustomFieldValue)
    (hv : nc1.account_number = none)
    (h1 : fan.id ≠ fah.id) (h2 : fan.id ≠ fdn.id) :
    (reconcile_custom_fields fah fan fdn nc1 holder values).filter
      (fun c => c.field == fan.id) =
      values.filter (fun c => c.field == fan.id) := by
  unfold reconcile_custom_fields
  simp only [List.filter_append]
  rw [reconcile_kept_filter_preserved fah fan fdn nc1 values fan.id
    (overwrite_not_contains fah fan fdn nc1 fan.id h1
      (fun hs => absurd hs (by simp [hv])) (fun _ => h2))]
  have h1s : fah.id ≠ fan.id := Ne.symm h1
  have h2s : fdn.id ≠ fan.id := Ne.symm h2
  cases hd : nc1.document_number <;> simp [hv, h1s, h2s]

/-- A detected document number fully replaces the document-number field. -/
theorem reconcile_filter_document_some (fah fan fdn : RemoteObject)
    (nc1 : NameComponents) (holder : String) (values : List CustomFieldValue)
    (v : String) (hv : nc1.document_number = some v)
    (h1 : fah.id ≠ fdn.id) (h2 : fan.id ≠ fdn.id) :
    (reconcile_custom_fields fah fan fdn nc1 holder values).filter
      (fun c => c.field == fdn.id) = [⟨fdn.id, v⟩] := by
  unfold reconcile_custom_fields
  simp only [List.filter_append]
  rw [reconcile_kept_filter_none fah fan fdn nc1 values fdn.id
    (overwrite_contains_document fah fan fdn nc1 (by rw [hv]; rfl))]
  cases ha : nc1.account_number <;> simp [hv, h1, h2]

/-- An undetected document number leaves the pre-existing document-number
value entries exactly as they were. -/
theorem reconcile_filter_document_none (fah fan fdn : RemoteObject)
    (nc1 : NameComponents) (holder : String) (values : List CustomFieldValue)
    (hv : nc1.document_number = none)
    (h1 : fdn.id ≠ fah.id) (h2 : fdn.id ≠ fan.id) :
    (reconcile_custom_fields fah fan fdn nc1 holder values).filter
      (fun c => c.field == fdn.id) =
      values.filter (fun c => c.field == fdn.id) := by
  unfold reconcile_custom_fields
  simp only [List.filter_append]
  rw [reconcile_kept_filter_preserved fah fan fdn nc1 values fdn.id
    (overwrite_not_contains fah fan fdn nc1 fdn.id h1
      (fun _ => h2) (fun hs => absurd hs (by simp [hv])))]
  have h1s : fah.id ≠ fdn.id := Ne.symm h1
  have h2s : fan.id ≠ fdn.id := Ne.symm h2
  cases ha : nc1.account_number <;> simp [hv, h1s, h2s]

/-- Inversion of a successful identification run: the returned document is
the post-state document; its title, created date and custom-field list are
the computed ones; the untouched fields frame; and a dry run additionally
leaves the server state, the create count and the correspondent and
document-type fields unchanged. -/
theorem identify_document_success_inversion (lib : RenamerLib) (cfg : Config)
    (execute : Bool) (st : ServerState) (doc : Document) (nc : NameComponents)
    (fah fan fdn : RemoteObject) (d1 d2 : Document) (st2 : ServerState) (k : Nat)
    (hah : lookup_custom_field st "Account Holder" = .ok fah)
    (han : lookup_custom_field st "Account Number" = .ok fan)
    (hdn : lookup_custom_field st "Document Number" = .ok fdn)
    (hrun : identify_document lib cfg execute st doc (.results [nc]) =
      .ok (some d1, d2, st2, k)) :
    ∃ filename,
      lib.render_filename (normalize_components lib cfg nc) = some filename
      ∧ d2 = d1
      ∧ d1.title = pyRemovesuffix filename ".pdf"
      ∧ d1.created_date = (normalize_components lib cfg nc).date.strftime_ymd
      ∧ d1.custom_field_values =
          reconcile_custom_fields fah fan fdn (normalize_components lib cfg nc)
            (String.intercalate " & " (normalize_components lib cfg nc).account_holder)
            doc.custom_field_values
      ∧ d1.id = doc.id ∧ d1.storage_path = doc.storage_path
      ∧ d1.mime_type = doc.mime_type
      ∧ (execute = false → st2 = st ∧ k = 0
          ∧ d1.correspondent = doc.correspondent
          ∧ d1.document_type = doc.document_type) := by
  cases hrender : lib.render_filename (normalize_components lib cfg nc) with
  | none =>
    unfold identify_document at hrun
    rw [hah, han, hdn] at hrun
    simp only [one, hrender] at hrun
    simp at hrun
  | some filename =>
    refine ⟨filename, rfl, ?_⟩
    cases execute with
    | false =>
      rw [identify_document_dry_run lib cfg st doc nc fah fan fdn filename
        hah han hdn hrender] at hrun
      simp only [] at hrun
      split at hrun
      · simp only [Except.ok.injEq, Prod.mk.injEq, Option.some.injEq] at hrun
        obtain ⟨h1, h2, h3, h4⟩ := hrun
        subst h1; subst h2; subst h3; subst h4
        exact ⟨rfl, rfl, rfl, rfl, rfl, rfl, rfl,
          fun _ => ⟨rfl, rfl, rfl, rfl⟩⟩
      · split at hrun
        · simp only [Except.ok.injEq, Prod.mk.injEq, Option.some.injEq] at hrun
          obtain ⟨h1, h2, h3, h4⟩ := hrun
          subst h1; subst h2; subst h3; subst h4
          exact ⟨rfl, rfl, rfl, rfl, rfl, rfl, rfl,
            fun _ => ⟨rfl, rfl, rfl, rfl⟩⟩
        · split at hrun
          · cases hrun
          · simp only [Except.ok.injEq, Prod.mk.injEq, Option.some.injEq] at hrun
            obtain ⟨h1, h2, h3, h4⟩ := hrun
            subst h1; subst h2; subst h3; subst h4
            exact ⟨rfl, rfl, rfl, rfl, rfl, rfl, rfl,
              fun _ => ⟨rfl, rfl, rfl, rfl⟩⟩
    | true =>
      cases hc1 : (ensure_correspondent correspondentApi 2 st
          (normalize_components lib cfg nc).service_name).1 with
      | error e =>
        unfold identify_document at hrun
        rw [hah, han, hdn] at hrun
        simp only [one, hrender, hc1] at hrun
        simp at hrun
      | ok corr =>
        cases hd1 : (ensure_document_type documentTypeApi 2
            (ensure_correspondent correspondentApi 2 st
              (normalize_components lib cfg nc).service_name).2.1
            (normalize_components lib cfg nc).document_type).1 with
        | error e =>
          unfold identify_document at hrun
          rw [hah, han, hdn] at hrun
          simp only [one, hrender, hc1, hd1] at hrun
          simp at hrun
        | ok dty =>
          rw [identify_document_execute_run lib cfg st doc nc fah fan fdn corr dty
            filename hah han hdn hrender hc1 hd1] at hrun
          simp only [] at hrun
          split at hrun
          · simp only [Except.ok.injEq, Prod.mk.injEq, Option.some.injEq] at hrun
            obtain ⟨h1, h2, h3, h4⟩ := hrun
            subst h1; subst h2; subst h3; subst h4
            exact ⟨rfl, rfl, rfl, rfl, rfl, rfl, rfl, fun h => by cases h⟩
          · split at hrun
            · simp only [Except.ok.injEq, Prod.mk.injEq, Option.some.injEq] at hrun
              obtain ⟨h1, h2, h3, h4⟩ := hrun
              subst h1; subst h2; subst h3; subst h4
              exact ⟨rfl, rfl, rfl, rfl, rfl, rfl, rfl, fun h => by cases h⟩
            · split at hrun
              · cases hrun
              · simp only [Except.ok.injEq, Prod.mk.injEq, Option.some.injEq] at hrun
                obtain ⟨h1, h2, h3, h4⟩ := hrun
                subst h1; subst h2; subst h3; subst h4
                exact ⟨rfl, rfl, rfl, rfl, rfl, rfl, rfl, fun h => by cases h⟩

/-! ## Lookup extensionality over untouched collections -/

theorem lookup_custom_field_ext {st st2 : ServerState}
    (h : st2.custom_fields = st.custom_fields) (name : String) :
    lookup_custom_field st2 name = lookup_custom_field st name := by
  unfold lookup_custom_field
  rw [h]

theorem lookup_correspondent_ext {st st2 : ServerState}
    (h : st2.correspondents = st.correspondents) (name : String) :
    lookup_correspondent st2 name = lookup_correspondent st name := by
  unfold lookup_correspondent
  rw [h]

theorem lookup_document_type_ext {st st2 : ServerState}
    (h : st2.document_types = st.document_types) (name : String) :
    lookup_document_type st2 name = lookup_document_type st name := by
  unfold lookup_document_type
  rw [h]

theorem lookup_tag_ext {st st2 : ServerState}
    (h : st2.tags = st.tags) (name : String) :
    lookup_tag st2 name = lookup_tag st name := by
  unfold lookup_tag
  rw [h]

/-! ## Claim C2: the custom-field overwrite policy -/

/-- C2: in every run that reaches custom-field reconciliation (unique
extraction candidate, valid filename — i.e. every run returning a
document), the account-holder field value is fully replaced by the joined
normalized holder names; the account-number and document-number values
are fully replaced exactly when extraction detected a value, and are
preserved unchanged — every pre-existing entry, not appended to — when it
did not. -/
theorem C2_custom_field_overwrite_policy (lib : RenamerLib) (cfg : Config)
    (execute : Bool) (st : ServerState) (doc : Document) (nc : NameComponents)
    (fah fan fdn : RemoteObject) (d1 d2 : Document) (st2 : ServerState) (k : Nat)
    (hah : lookup_custom_field st "Account Holder" = .ok fah)
    (han : lookup_custom_field st "Account Number" = .ok fan)
    (hdn : lookup_custom_field st "Document Number" = .ok fdn)
    (hne1 : fah.id ≠ fan.id) (hne2 : fah.id ≠ fdn.id) (hne3 : fan.id ≠ fdn.id)
    (hrun : identify_document lib cfg execute st doc (.results [nc]) =
      .ok (some d1, d2, st2, k)) :
    (d1.custom_field_values.filter (fun c => c.field == fah.id) =
      [⟨fah.id, String.intercalate " & "
        (normalize_components lib cfg nc).account_holder⟩])
    ∧ (∀ v, nc.account_number = some v →
      d1.custom_field_values.filter (fun c => c.field == fan.id) = [⟨fan.id, v⟩])
    ∧ (nc.account_number = none →
      d1.custom_field_values.filter (fun c => c.field == fan.id) =
        doc.custom_field_values.filter (fun c => c.field == fan.id))
    ∧ (∀ v, nc.document_number = some v →
      d1.custom_field_values.filter (fun c => c.field == fdn.id) = [⟨fdn.id, v⟩])
    ∧ (nc.document_number = none →
      d1.custom_field_values.filter (fun c => c.field == fdn.id) =
        doc.custom_field_values.filter (fun c => c.field == fdn.id)) := by
  obtain ⟨filename, hrender, hd2, htitle, hdate, hcfv, -⟩ :=
    identify_document_success_inversion lib cfg execute st doc nc fah fan fdn
      d1 d2 st2 k hah han hdn hrun
  refine ⟨?_, fun v hv => ?_, fun hv => ?_, fun v hv => ?_, fun hv => ?_⟩
  · rw [hcfv]
    exact reconcile_filter_holder _ _ _ _ _ _ (Ne.symm hne1) (Ne.symm hne2)
  · rw [hcfv]
    exact reconcile_filter_account_some _ _ _ _ _ _ v hv hne1 (Ne.symm hne3)
  · rw [hcfv]
    exact reconcile_filter_account_none _ _ _ _ _ _ hv (Ne.symm hne1) hne3
  · rw [hcfv]
    exact reconcile_filter_document_some _ _ _ _ _ _ v hv hne2 hne3
  · rw [hcfv]
    exact reconcile_filter_document_none _ _ _ _ _ _ hv (Ne.symm hne2) (Ne.symm hne3)

/-- Witness for C2, on the spec section 8 scenario: the detected account
number `123` replaces the account-number field, the holder field becomes
the aliased `John Smith`, and the manually entered document number
`OLD-99` survives untouched. -/
theorem C2_custom_field_overwrite_policy_witness :
    docIdentified.custom_field_values.filter (fun c => c.field == (1 : Int))
      = [⟨1, "John Smith"⟩]
    ∧ docIdentified.custom_field_values.filter (fun c => c.field == (2 : Int))
      = [⟨2, "123"⟩]
    ∧ docIdentified.custom_field_values.filter (fun c => c.field == (3 : Int))
      = docFixture.custom_field_values.filter (fun c => c.field == (3 : Int)) :=
  have h := C2_custom_field_overwrite_policy renamerFixture cfgFixture true
    stFixture docFixture ncFixture
    ⟨1, "Account Holder", "account-holder"⟩
    ⟨2, "Account Number", "account-number"⟩
    ⟨3, "Document Number", "document-number"⟩
    docIdentified docIdentified stAfterRun 2
    (by decide) (by decide) (by decide)
    (by decide) (by decide) (by decide)
    (by decide)
  ⟨h.1, h.2.1 "123" rfl, h.2.2.2.2 rfl⟩

/-! ## Claim C8: dry-run duality -/

/-- Inversion helper for the skip paths: a skip result equated with an
arbitrary ok result pins every component. -/
theorem skip_result_inv {r : Option Document} {doc d2 : Document}
    {st st2 : ServerState} {k : Nat}
    (h : (.ok (none, doc, st, 0) :
      Except PipelineFailure (Option Document × Document × ServerState × Nat)) =
      .ok (r, d2, st2, k)) :
    r = none ∧ d2 = doc ∧ st2 = st ∧ k = 0 := by
  simp only [Except.ok.injEq, Prod.mk.injEq] at h
  exact ⟨h.1.symm, h.2.1.symm, h.2.2.1.symm, h.2.2.2.symm⟩

/-- C8: a dry run (`execute = false`) never changes the server state, never
issues ensure/create requests, and leaves the document's correspondent and
document-type fields unchanged; and whenever the corresponding execute run
returns a document, the dry run also returns one carrying exactly the same
computed title, created date and reconciled custom-field list. -/
theorem C8_dry_run_behavior (lib : RenamerLib) (cfg : Config) (st : ServerState)
    (doc : Document) (extraction : ExtractionOutcome) :
    (∀ r d2 st2 k,
      identify_document lib cfg false st doc extraction = .ok (r, d2, st2, k) →
      st2 = st ∧ k = 0 ∧ d2.correspondent = doc.correspondent
        ∧ d2.document_type = doc.document_type)
    ∧ (∀ dT d2T stT kT,
      identify_document lib cfg true st doc extraction = .ok (some dT, d2T, stT, kT) →
      ∃ dF, identify_document lib cfg false st doc extraction = .ok (some dF, dF, st, 0)
        ∧ dF.correspondent = doc.correspondent ∧ dF.document_type = doc.document_type
        ∧ dF.title = dT.title ∧ dF.created_date = dT.created_date
        ∧ dF.custom_field_values = dT.custom_field_values) := by
  constructor
  · intro r d2 st2 k hrun
    cases hah : lookup_custom_field st "Account Holder" with
    | error e =>
      unfold identify_document at hrun
      rw [hah] at hrun
      simp at hrun
    | ok fah =>
    cases han : lookup_custom_field st "Account Number" with
    | error e =>
      unfold identify_document at hrun
      rw [hah, han] at hrun
      simp at hrun
    | ok fan =>
    cases hdn : lookup_custom_field st "Document Number" with
    | error e =>
      unfold identify_document at hrun
      rw [hah, han, hdn] at hrun
      simp at hrun
    | ok fdn =>
    cases extraction with
    | engineError =>
      unfold identify_document at hrun
      rw [hah, han, hdn] at hrun
      simp only [one] at hrun
      obtain ⟨-, h2, h3, h4⟩ := skip_result_inv hrun
      subst h2; subst h3; subst h4
      exact ⟨rfl, rfl, rfl, rfl⟩
    | results candidates =>
      have hskip : ∀ e, one candidates = Except.error e →
          st2 = st ∧ k = 0 ∧ d2.correspondent = doc.correspondent
            ∧ d2.document_type = doc.document_type := by
        intro e he
        unfold identify_document at hrun
        rw [hah, han, hdn] at hrun
        simp only [he] at hrun
        obtain ⟨-, h2, h3, h4⟩ := skip_result_inv hrun
        subst h2; subst h3; subst h4
        exact ⟨rfl, rfl, rfl, rfl⟩
      match candidates with
      | [] => exact hskip .notFound rfl
      | nc1 :: nc2 :: rest => exact hskip .ambiguous rfl
      | [nc] =>
        cases hrender : lib.render_filename (normalize_components lib cfg nc) with
        | none =>
          unfold identify_document at hrun
          rw [hah, han, hdn] at hrun
          simp only [one, hrender] at hrun
          obtain ⟨-, h2, h3, h4⟩ := skip_result_inv hrun
          subst h2; subst h3; subst h4
          exact ⟨rfl, rfl, rfl, rfl⟩
        | some filename =>
          rw [identify_document_dry_run lib cfg st doc nc fah fan fdn filename
            hah han hdn hrender] at hrun
          simp only [] at hrun
          split at hrun
          · simp only [Except.ok.injEq, Prod.mk.injEq] at hrun
            obtain ⟨-, h2, h3, h4⟩ := hrun
            subst h2; subst h3; subst h4
            exact ⟨rfl, rfl, rfl, rfl⟩
          · split at hrun
            · simp only [Except.ok.injEq, Prod.mk.injEq] at hrun
              obtain ⟨-, h2, h3, h4⟩ := hrun
              subst h2; subst h3; subst h4
              exact ⟨rfl, rfl, rfl, rfl⟩
            · split at hrun
              · cases hrun
              · simp only [Except.ok.injEq, Prod.mk.injEq] at hrun
                obtain ⟨-, h2, h3, h4⟩ := hrun
                subst h2; subst h3; subst h4
                exact ⟨rfl, rfl, rfl, rfl⟩
  · intro dT d2T stT kT hrun
    cases hah : lookup_custom_field st "Account Holder" with
    | error e =>
      unfold identify_document at hrun
      rw [hah] at hrun
      simp at hrun
    | ok fah =>
    cases han : lookup_custom_field st "Account Number" with
    | error e =>
      unfold identify_document at hrun
      rw [hah, han] at hrun
      simp at hrun
    | ok fan =>
    cases hdn : lookup_custom_field st "Document Number" with
    | error e =>
      unfold identify_document at hrun
      rw [hah, han, hdn] at hrun
      simp at hrun
    | ok fdn =>
    cases extraction with
    | engineError =>
      unfold identify_document at hrun
      rw [hah, han, hdn] at hrun
      simp only [one] at hrun
      simp at hrun
    | results candidates =>
      have hskip : ∀ e, one candidates = Except.error e → False := by
        intro e he
        unfold identify_document at hrun
        rw [hah, han, hdn] at hrun
        simp only [he] at hrun
        simp at hrun
      match candidates with
      | [] => exact absurd rfl (fun h => hskip .notFound h)
      | nc1 :: nc2 :: rest => exact absurd rfl (fun h => hskip .ambiguous h)
      | [nc] =>
        cases hrender : lib.render_filename (normalize_components lib cfg nc) with
        | none =>
          unfold identify_document at hrun
          rw [hah, han, hdn] at hrun
          simp only [one, hrender] at hrun
          simp at hrun
        | some filename =>
          cases hc1 : (ensure_correspondent correspondentApi 2 st
              (normalize_components lib cfg nc).service_name).1 with
          | error e =>
            unfold identify_document at hrun
            rw [hah, han, hdn] at hrun
            simp only [one, hrender, hc1] at hrun
            simp at hrun
          | ok corr =>
          cases hd1 : (ensure_document_type documentTypeApi 2
              (ensure_correspondent correspondentApi 2 st
                (normalize_components lib cfg nc).service_name).2.1
              (normalize_components lib cfg nc).document_type).1 with
          | error e =>
            unfold identify_document at hrun
            rw [hah, han, hdn] at hrun
            simp only [one, hrender, hc1, hd1] at hrun
            simp at hrun
          | ok dty =>
          have hens1 : ensure_correspondent correspondentApi 2 st
              (normalize_components lib cfg nc).service_name =
              (.ok corr,
               (ensure_correspondent correspondentApi 2 st
                 (normalize_components lib cfg nc).service_name).2.1,
               (ensure_correspondent correspondentApi 2 st
                 (normalize_components lib cfg nc).service_name).2.2) := by
            rw [← hc1]
          have hens2 : ensure_document_type documentTypeApi 2
              (ensure_correspondent correspondentApi 2 st
                (normalize_components lib cfg nc).service_name).2.1
              (normalize_components lib cfg nc).document_type =
              (.ok dty,
               (ensure_document_type documentTypeApi 2
                 (ensure_correspondent correspondentApi 2 st
                   (normalize_components lib cfg nc).service_name).2.1
                 (normalize_components lib cfg nc).document_type).2.1,
               (ensure_document_type documentTypeApi 2
                 (ensure_correspondent correspondentApi 2 st
                   (normalize_components lib cfg nc).service_name).2.1
                 (normalize_components lib cfg nc).document_type).2.2) := by
            rw [← hd1]
          have spec1 := ensure_correspondent_spec hens1
          have spec2 := ensure_document_type_spec hens2
          have htags : (ensure_document_type documentTypeApi 2
              (ensure_correspondent correspondentApi 2 st
                (normalize_components lib cfg nc).service_name).2.1
              (normalize_components lib cfg nc).document_type).2.1.tags = st.tags := by
            rw [spec2.2.1, spec1.2.1]
          have hdry := identify_document_dry_run lib cfg st doc nc fah fan fdn
            filename hah han hdn hrender
          rw [identify_document_execute_run lib cfg st doc nc fah fan fdn corr dty
            filename hah han hdn hrender hc1 hd1] at hrun
          simp only [] at hrun
          simp only [] at hdry
          split at hrun
          · next heq =>
            simp only [heq] at hdry
            simp only [Except.ok.injEq, Prod.mk.injEq, Option.some.injEq] at hrun
            obtain ⟨h1, -⟩ := hrun
            subst h1
            exact ⟨_, hdry, rfl, rfl, rfl, rfl, rfl⟩
          · next nm heq =>
            split at hrun
            · next hnm =>
              simp only [heq, if_pos hnm] at hdry
              simp only [Except.ok.injEq, Prod.mk.injEq, Option.some.injEq] at hrun
              obtain ⟨h1, -⟩ := hrun
              subst h1
              exact ⟨_, hdry, rfl, rfl, rfl, rfl, rfl⟩
            · next hnm =>
              split at hrun
              · cases hrun
              · next t hlt =>
                rw [lookup_tag_ext htags nm] at hlt
                simp only [heq, if_neg hnm, hlt] at hdry
                simp only [Except.ok.injEq, Prod.mk.injEq, Option.some.injEq] at hrun
                obtain ⟨h1, -⟩ := hrun
                subst h1
                exact ⟨_, hdry, rfl, rfl, rfl, rfl, rfl⟩

/-- Witness for C8 on the fixture: the dry run returns the same computed
title, date and custom fields as the execute run, while leaving the
correspondent and document type unset and the server untouched. -/
theorem C8_dry_run_behavior_witness :
    ∃ dF, identify_document renamerFixture cfgFixture false stFixture docFixture
        (.results [ncFixture]) = .ok (some dF, dF, stFixture, 0)
      ∧ dF.correspondent = docFixture.correspondent
      ∧ dF.document_type = docFixture.document_type
      ∧ dF.title = docIdentified.title
      ∧ dF.created_date = docIdentified.created_date
      ∧ dF.custom_field_values = docIdentified.custom_field_values :=
  (C8_dry_run_behavior renamerFixture cfgFixture stFixture docFixture
    (.results [ncFixture])).2 docIdentified docIdentified stAfterRun 2 (by decide)

/-! ## Claim C1: idempotence of the execute pipeline -/

/-- C1: a second execute run on the server state produced by a first
successful run, over the persisted document and with extraction again
yielding the same unique `NameComponents`, computes the same title,
created date, correspondent id and document-type id — re-running the
pipeline is a no-op on those four fields.  (`update_document`, the
persistence step between the runs, writes only to the documents
collection, which the pipeline does not read back; the persisted document
is the returned one, so the second run receives `d1` and `st1`.) -/
theorem C1_identify_execute_idempotent (lib : RenamerLib) (cfg : Config)
    (st : ServerState) (doc : Document) (nc : NameComponents)
    (d1 d1x : Document) (st1 : ServerState) (k1 : Nat)
    (hrun1 : identify_document lib cfg true st doc (.results [nc]) =
      .ok (some d1, d1x, st1, k1)) :
    ∃ d2 st2 k2, identify_document lib cfg true st1 d1 (.results [nc]) =
        .ok (some d2, d2, st2, k2)
      ∧ d2.title = d1.title ∧ d2.created_date = d1.created_date
      ∧ d2.correspondent = d1.correspondent
      ∧ d2.document_type = d1.document_type := by
  cases hah : lookup_custom_field st "Account Holder" with
  | error e =>
    unfold identify_document at hrun1
    rw [hah] at hrun1
    simp at hrun1
  | ok fah =>
  cases han : lookup_custom_field st "Account Number" with
  | error e =>
    unfold identify_document at hrun1
    rw [hah, han] at hrun1
    simp at hrun1
  | ok fan =>
  cases hdn : lookup_custom_field st "Document Number" with
  | error e =>
    unfold identify_document at hrun1
    rw [hah, han, hdn] at hrun1
    simp at hrun1
  | ok fdn =>
  cases hrender : lib.render_filename (normalize_components lib cfg nc) with
  | none =>
    unfold identify_document at hrun1
    rw [hah, han, hdn] at hrun1
    simp only [one, hrender] at hrun1
    simp at hrun1
  | some filename =>
  cases hc1 : (ensure_correspondent correspondentApi 2 st
      (normalize_components lib cfg nc).service_name).1 with
  | error e =>
    unfold identify_document at hrun1
    rw [hah, han, hdn] at hrun1
    simp only [one, hrender, hc1] at hrun1
    simp at hrun1
  | ok corr =>
  cases hd1 : (ensure_document_type documentTypeApi 2
      (ensure_correspondent correspondentApi 2 st
        (normalize_components lib cfg nc).service_name).2.1
      (normalize_components lib cfg nc).document_type).1 with
  | error e =>
    unfold identify_document at hrun1
    rw [hah, han, hdn] at hrun1
    simp only [one, hrender, hc1, hd1] at hrun1
    simp at hrun1
  | ok dty =>
  have hens1 : ensure_correspondent correspondentApi 2 st
      (normalize_components lib cfg nc).service_name =
      (.ok corr,
       (ensure_correspondent correspondentApi 2 st
         (normalize_components lib cfg nc).service_name).2.1,
       (ensure_correspondent correspondentApi 2 st
         (normalize_components lib cfg nc).service_name).2.2) := by
    rw [← hc1]
  have hens2 : ensure_document_type documentTypeApi 2
      (ensure_correspondent correspondentApi 2 st
        (normalize_components lib cfg nc).service_name).2.1
      (normalize_components lib cfg nc).document_type =
      (.ok dty,
       (ensure_document_type documentTypeApi 2
         (ensure_correspondent correspondentApi 2 st
           (normalize_components lib cfg nc).service_name).2.1
         (normalize_components lib cfg nc).document_type).2.1,
       (ensure_document_type documentTypeApi 2
         (ensure_correspondent correspondentApi 2 st
           (normalize_components lib cfg nc).service_name).2.1
         (normalize_components lib cfg nc).document_type).2.2) := by
    rw [← hd1]
  have spec1 := ensure_correspondent_spec hens1
  have spec2 := ensure_document_type_spec hens2
  -- the collections of the post-run state seen by the second run
  have hcf : (ensure_document_type documentTypeApi 2
      (ensure_correspondent correspondentApi 2 st
        (normalize_components lib cfg nc).service_name).2.1
      (normalize_components lib cfg nc).document_type).2.1.custom_fields
      = st.custom_fields := by
    rw [spec2.2.2.2.1, spec1.2.2.2.1]
  have htags : (ensure_document_type documentTypeApi 2
      (ensure_correspondent correspondentApi 2 st
        (normalize_components lib cfg nc).service_name).2.1
      (normalize_components lib cfg nc).document_type).2.1.tags = st.tags := by
    rw [spec2.2.1, spec1.2.1]
  have hah2 := (lookup_custom_field_ext hcf "Account Holder").trans hah
  have han2 := (lookup_custom_field_ext hcf "Account Number").trans han
  have hdn2 := (lookup_custom_field_ext hcf "Document Number").trans hdn
  have hcorr2 : lookup_correspondent
      (ensure_document_type documentTypeApi 2
        (ensure_correspondent correspondentApi 2 st
          (normalize_components lib cfg nc).service_name).2.1
        (normalize_components lib cfg nc).document_type).2.1
      (normalize_components lib cfg nc).service_name = .ok corr :=
    (lookup_correspondent_ext spec2.2.2.1 _).trans spec1.1
  have hens1second := @ensure_correspondent_of_found ServerState correspondentApi _ _ _ 1 hcorr2
  have hens2second := @ensure_document_type_of_found ServerState documentTypeApi _ _ _ 1 spec2.1
  have hc1second : (ensure_correspondent correspondentApi 2
      (ensure_document_type documentTypeApi 2
        (ensure_correspondent correspondentApi 2 st
          (normalize_components lib cfg nc).service_name).2.1
        (normalize_components lib cfg nc).document_type).2.1
      (normalize_components lib cfg nc).service_name).1 = .ok corr := by
    rw [hens1second]
  have hd1second : (ensure_document_type documentTypeApi 2
      (ensure_correspondent correspondentApi 2
        (ensure_document_type documentTypeApi 2
          (ensure_correspondent correspondentApi 2 st
            (normalize_components lib cfg nc).service_name).2.1
          (normalize_components lib cfg nc).document_type).2.1
        (normalize_components lib cfg nc).service_name).2.1
      (normalize_components lib cfg nc).document_type).1 = .ok dty := by
    simp only [hens1second]
    rw [hens2second]
  rw [identify_document_execute_run lib cfg st doc nc fah fan fdn corr dty
    filename hah han hdn hrender hc1 hd1] at hrun1
  simp only [] at hrun1
  have hrun2 := identify_document_execute_run lib cfg _ d1 nc fah fan fdn corr dty
    filename hah2 han2 hdn2 hrender hc1second hd1second
  simp only [] at hrun2
  split at hrun1
  · next heq =>
    simp only [heq, hens1second, hens2second] at hrun2
    simp only [Except.ok.injEq, Prod.mk.injEq, Option.some.injEq] at hrun1
    obtain ⟨hd1eq, -, hst1, -⟩ := hrun1
    subst hd1eq
    subst hst1
    exact ⟨_, _, _, hrun2, rfl, rfl, rfl, rfl⟩
  · next nm heq =>
    split at hrun1
    · next hnm =>
      simp only [heq, if_pos hnm, hens1second, hens2second] at hrun2
      simp only [Except.ok.injEq, Prod.mk.injEq, Option.some.injEq] at hrun1
      obtain ⟨hd1eq, -, hst1, -⟩ := hrun1
      subst hd1eq
      subst hst1
      exact ⟨_, _, _, hrun2, rfl, rfl, rfl, rfl⟩
    · next hnm =>
      split at hrun1
      · cases hrun1
      · next t hlt =>
        simp only [heq, if_neg hnm, hens1second, hens2second, hlt] at hrun2
        simp only [Except.ok.injEq, Prod.mk.injEq, Option.some.injEq] at hrun1
        obtain ⟨hd1eq, -, hst1, -⟩ := hrun1
        subst hd1eq
        subst hst1
        exact ⟨_, _, _, hrun2, rfl, rfl, rfl, rfl⟩

/-- Witness for C1 on the fixture: the second execute run over the state
and document produced by the first returns the same four fields. -/
theorem C1_identify_execute_idempotent_witness :
    ∃ d2 st2 k2, identify_document renamerFixture cfgFixture true
        stAfterRun docIdentified (.results [ncFixture]) =
        .ok (some d2, d2, st2, k2)
      ∧ d2.title = docIdentified.title
      ∧ d2.created_date = docIdentified.created_date
      ∧ d2.correspondent = docIdentified.correspondent
      ∧ d2.document_type = docIdentified.document_type :=
  C1_identify_execute_idempotent renamerFixture cfgFixture stFixture docFixture
    ncFixture docIdentified docIdentified stAfterRun 2 (by decide)

end Paperless
